import Mathlib

/-!
# kong-docker-daemon: a verification development

Shallow embedding of `pkg/toolkit/diff.go`, `pkg/kong/api.go` and `main.go`.

Conventions of the embedding

* A Go `error` is modelled by its message; `Option error` is a Go `error`
  value, `none` being `nil`.
* A Go map with string keys is an association list with distinct keys; a
  `range` over the map visits the list from its head. Go leaves the order of a
  `range` unspecified, so statements about loops over a map quantify over
  every list.
* A Go slice is a list; the `nil` slice is the empty list.
-/

set_option autoImplicit false

/-- Go `error` values, identified by their message. -/
abbrev error := String

/-- Go map with string keys: an association list. -/
abbrev GoMap (α : Type) := List (String × α)

namespace GoMap

/-- Map read `v, ok := m[k]`; `none` stands for `ok == false`. -/
def lookup {α : Type} (m : GoMap α) (k : String) : Option α :=
  List.lookup k m

/-- Map write `m[k] = v`: replaces the value of a present key, adds a new key otherwise. -/
def set {α : Type} : GoMap α → String → α → GoMap α
  | [], k, v => [(k, v)]
  | (k', v') :: rest, k, v => if k' == k then (k, v) :: rest else (k', v') :: set rest k v

end GoMap

/-! ## pkg/toolkit/diff.go -/

namespace toolkit

/-- Embedding of `Diff` (diff.go, lines 4-17): `bMap` receives every value of `b`
as a key, then the values of `a` that are no key of `bMap` are appended to `diff`
in the order of `a`. -/
def Diff (a b : List String) : List String :=
  let bMap : GoMap Unit := b.foldl (fun m val => GoMap.set m val ()) []
  a.foldl (fun diff val => if (GoMap.lookup bMap val).isNone then diff ++ [val] else diff) []

end toolkit

/-! ## pkg/kong/types.go -/

namespace kong

/-- Upstream response object (types.go, lines 16-21); `uint` fields are naturals. -/
structure UpstreamResponse where
  ID : String
  Name : String
  Slots : Nat
  CreatedAt : Nat
  deriving DecidableEq, Repr

/-- Target response object (types.go, lines 30-36). -/
structure TargetResponse where
  ID : String
  Target : String
  Weight : Nat
  UpstreamID : String
  CreatedAt : Nat
  deriving DecidableEq, Repr

/-- Target list response object (types.go, lines 39-42). `Total` and `Data` are two
independent fields of the decoded body. -/
structure TargetListResponse where
  Total : Nat
  Data : List TargetResponse
  deriving DecidableEq, Repr

/-! ## pkg/kong/api.go: status handling -/

/-- The fields of `http.Response` that api.go reads. -/
structure Response where
  StatusCode : Int
  Status : String
  Body : String
  deriving DecidableEq, Repr

namespace api

/-- Embedding of `Client.RetrieveUpstream` (api.go, lines 32-57). `get` is the outcome
of `k.get("/upstreams/"+name, nil)`: a transport error or a response. `decode` stands
for `json.NewDecoder(res.Body).Decode(&result)`: the decoded (possibly partial) value
and the decoder's error. The result is the Go pair `(*UpstreamResponse, error)`. -/
def RetrieveUpstream (decode : String → UpstreamResponse × Option error)
    (get : Except error Response) : Option UpstreamResponse × Option error :=
  match get with
  | .error err => (none, some err)
  | .ok res =>
    if res.StatusCode == 404 then (none, none)
    else if res.StatusCode ≥ 400 then (none, some res.Status)
    else
      let (result, err) := decode res.Body
      (some result, err)

/-- Embedding of `Client.DeleteTarget` (api.go, lines 181-202). `del` is the outcome of
`k.delete("/upstreams/"+upstream+"/targets/"+targetID, nil)`. The last line returns
`err`, which is `nil` there. -/
def DeleteTarget (del : Except error Response) : Option error :=
  match del with
  | .error err => some err
  | .ok res =>
    if res.StatusCode == 404 then none
    else if res.StatusCode ≥ 400 then some res.Status
    else none

end api

/-! ## The gateway client as seen by main.go -/

/-- The methods of `*kong.Client` that main.go calls, over a gateway whose state has
type `σ`. A Go result `(value, error)` whose value the callers read only when the
error is `nil` is an `Except`. -/
structure Client (σ : Type) where
  RetrieveUpstream : String → σ → Except error (Option UpstreamResponse) × σ
  UpdateOrCreateUpstream : String → σ → Option error × σ
  ListActiveTargets : String → σ → Except error TargetListResponse × σ
  AddTarget : String → String → Nat → σ → Except error TargetResponse × σ
  DeleteTarget : String → String → σ → Option error × σ

/-- A request issued to the gateway. -/
inductive Call where
  | RetrieveUpstream (name : String)
  | UpdateOrCreateUpstream (name : String)
  | ListActiveTargets (upstream : String)
  | AddTarget (upstream target : String) (weight : Nat)
  | DeleteTarget (upstream targetID : String)
  deriving DecidableEq, Repr

/-- Whether a request changes the gateway (POST or DELETE). -/
def Call.mutates : Call → Bool
  | .RetrieveUpstream _ => false
  | .UpdateOrCreateUpstream _ => true
  | .ListActiveTargets _ => false
  | .AddTarget _ _ _ => true
  | .DeleteTarget _ _ => true

/-- The same client, keeping the list of the requests issued (oldest first). -/
def Client.recording {σ : Type} (K : Client σ) : Client (σ × List Call) where
  RetrieveUpstream name s :=
    let (r, k) := K.RetrieveUpstream name s.1
    (r, (k, s.2 ++ [Call.RetrieveUpstream name]))
  UpdateOrCreateUpstream name s :=
    let (r, k) := K.UpdateOrCreateUpstream name s.1
    (r, (k, s.2 ++ [Call.UpdateOrCreateUpstream name]))
  ListActiveTargets upstream s :=
    let (r, k) := K.ListActiveTargets upstream s.1
    (r, (k, s.2 ++ [Call.ListActiveTargets upstream]))
  AddTarget upstream target weight s :=
    let (r, k) := K.AddTarget upstream target weight s.1
    (r, (k, s.2 ++ [Call.AddTarget upstream target weight]))
  DeleteTarget upstream targetID s :=
    let (r, k) := K.DeleteTarget upstream targetID s.1
    (r, (k, s.2 ++ [Call.DeleteTarget upstream targetID]))

/-! ## A gateway model

Each upstream has its own record: whether it exists, its active targets, the
requests received for it, and a script of faults. Every request for an upstream
consumes the head of the script of that upstream; `true` makes the request fail
with a status of 500. `DeleteTarget` removes the entry with the given id (no entry:
status 404, which the client reports as success) and `AddTarget` adds an entry for
the given target string. -/

/-- State of one upstream of the gateway model. -/
structure UpstreamState where
  present : Bool
  targets : List TargetResponse
  nextID : Nat
  faults : List Bool
  requests : List Call
  deriving DecidableEq, Repr

/-- The gateway model: one state per upstream name. -/
abbrev Gateway := String → UpstreamState

/-- Receiving a request: the request is logged and the head of the fault script consumed. -/
def UpstreamState.receive (st : UpstreamState) (c : Call) : Bool × UpstreamState :=
  (st.faults.headD false, { st with faults := st.faults.tail, requests := st.requests ++ [c] })

/-- The gateway model restricted to the upstream the requests are about. -/
def upstreamModel : Client UpstreamState where
  RetrieveUpstream name st :=
    let (fault, st1) := st.receive (Call.RetrieveUpstream name)
    if fault then (.error "500 Internal Server Error", st1)
    else if st1.present then (.ok (some ⟨name, name, 0, 0⟩), st1)
    else (.ok none, st1)
  UpdateOrCreateUpstream name st :=
    let (fault, st1) := st.receive (Call.UpdateOrCreateUpstream name)
    if fault then (some "500 Internal Server Error", st1)
    else (none, { st1 with present := true })
  ListActiveTargets upstream st :=
    let (fault, st1) := st.receive (Call.ListActiveTargets upstream)
    if fault then (.error "500 Internal Server Error", st1)
    else if st1.present then (.ok ⟨st1.targets.length, st1.targets⟩, st1)
    else (.error "404 Not Found", st1)
  AddTarget upstream target weight st :=
    let (fault, st1) := st.receive (Call.AddTarget upstream target weight)
    if fault then (.error "500 Internal Server Error", st1)
    else if st1.present then
      let tgt : TargetResponse := ⟨toString st1.nextID, target, weight, upstream, 0⟩
      (.ok tgt, { st1 with targets := st1.targets ++ [tgt], nextID := st1.nextID + 1 })
    else (.error "404 Not Found", st1)
  DeleteTarget upstream targetID st :=
    let (fault, st1) := st.receive (Call.DeleteTarget upstream targetID)
    if fault then (some "500 Internal Server Error", st1)
    else (none, { st1 with targets := st1.targets.filter (fun t => t.ID != targetID) })

/-- Applying an operation of one upstream to the whole gateway. -/
def Gateway.onUpstream {α : Type} (h : UpstreamState → α × UpstreamState) (u : String)
    (g : Gateway) : α × Gateway :=
  ((h (g u)).1, Function.update g u (h (g u)).2)

/-- The gateway model: a request for an upstream acts on the state of that upstream. -/
def model : Client Gateway where
  RetrieveUpstream name := Gateway.onUpstream (upstreamModel.RetrieveUpstream name) name
  UpdateOrCreateUpstream name := Gateway.onUpstream (upstreamModel.UpdateOrCreateUpstream name) name
  ListActiveTargets upstream := Gateway.onUpstream (upstreamModel.ListActiveTargets upstream) upstream
  AddTarget upstream target weight :=
    Gateway.onUpstream (upstreamModel.AddTarget upstream target weight) upstream
  DeleteTarget upstream targetID :=
    Gateway.onUpstream (upstreamModel.DeleteTarget upstream targetID) upstream

end kong
/-! ## The container runtime as seen by main.go -/

namespace types

/-- The fields of `types.Container` (an entry of `ContainerList`) that main.go reads. -/
structure Container where
  ID : String
  State : String
  Labels : GoMap String
  deriving DecidableEq, Repr

/-- The part `Config` of an inspected container. `ExposedPorts` lists the keys of the
port set in the order in which `reflect.ValueOf(...).MapKeys()` returns them. -/
structure ContainerConfig where
  ExposedPorts : List String
  deriving DecidableEq, Repr

/-- An attached network (`EndpointSettings`). -/
structure EndpointSettings where
  IPAddress : String
  deriving DecidableEq, Repr

/-- The part `NetworkSettings` of an inspected container. -/
structure NetworkSettings where
  IPAddress : String
  Networks : GoMap EndpointSettings
  deriving DecidableEq, Repr

/-- The part `HostConfig` of an inspected container. -/
structure HostConfig where
  NetworkMode : String
  deriving DecidableEq, Repr

/-- The fields of `types.ContainerJSON` (the result of `ContainerInspect`) that main.go reads. -/
structure ContainerJSON where
  ID : String
  Name : String
  Config : ContainerConfig
  NetworkSettings : NetworkSettings
  HostConfig : HostConfig
  deriving DecidableEq, Repr

end types

namespace events

/-- The actor of an event. -/
structure Actor where
  ID : String
  Attributes : GoMap String
  deriving DecidableEq, Repr

/-- An event of the runtime (`events.Message`); `Type_` is the field `Type`. -/
structure Message where
  Type_ : String
  Action : String
  Actor : Actor
  deriving DecidableEq, Repr

end events

/-- The two requests main.go sends to the container runtime, with their outcomes. -/
structure DockerClient where
  ContainerList : Except error (List types.Container)
  ContainerInspect : String → Except error types.ContainerJSON

/-- Outcome of a Go function that may panic. -/
inductive Outcome (α : Type) where
  | returned (a : α)
  | panicked (msg : String)
  deriving DecidableEq, Repr

/-! ## main.go -/

namespace main

/-- Type `UpstreamConfig` (main.go, line 39): upstream name to targets. -/
abbrev UpstreamConfig := GoMap (List String)

/-- Map read `config[k]`: the `nil` slice for an absent key. -/
def UpstreamConfig.index (config : UpstreamConfig) (k : String) : List String :=
  (GoMap.lookup config k).getD []

/-- Constant `KongUpstreamLabel` (main.go, line 42). -/
def KongUpstreamLabel : String := "kong.upstream"

/-- The call `portRE.FindString(s)` with `portRE` the regular expression `^[0-9]+`
(main.go, line 50): the longest run of ASCII digits at the start of `s`, the empty
string when `s` does not start with a digit. -/
def portRE.FindString (s : String) : String :=
  String.mk (s.toList.takeWhile (fun c => decide ('0' ≤ c ∧ c ≤ '9')))

/-- Embedding of `getContainerTarget` (main.go, lines 314-354); the result is the Go
pair `(string, error)`. -/
def getContainerTarget (D : DockerClient) (ID : String) : String × Option error :=
  match D.ContainerInspect ID with
  | .error err => ("", some err)
  | .ok container =>
    match container.Config.ExposedPorts with
    | [] => ("", none)
    | port0 :: _ =>
      let port := portRE.FindString port0
      let ip :=
        if container.NetworkSettings.IPAddress != "" then
          container.NetworkSettings.IPAddress
        else
          match container.NetworkSettings.Networks with
          | (_, network) :: _ => network.IPAddress
          | [] => if "host" == container.HostConfig.NetworkMode then "127.0.0.1" else ""
      let target := ip ++ ":" ++ port
      (target, none)

/-- Body of the loop of `getUpstreamConfigurationFromDocker` (main.go, lines 160-173). -/
def getUpstreamConfigurationFromDocker.step (D : DockerClient) (upstream : String)
    (config : UpstreamConfig) (c : types.Container) : UpstreamConfig :=
  let running := c.State == "running"
  match GoMap.lookup c.Labels KongUpstreamLabel with
  | some ups =>
    if running then
      if upstream != "" && upstream != ups then config
      else
        let (target, err) := getContainerTarget D c.ID
        if err.isSome || target == "" then config
        else GoMap.set config ups (UpstreamConfig.index config ups ++ [target])
    else config
  | none => config

/-- Embedding of `getUpstreamConfigurationFromDocker` (main.go, lines 148-175). -/
def getUpstreamConfigurationFromDocker (D : DockerClient) (upstream : String) :
    Except error UpstreamConfig :=
  match D.ContainerList with
  | .error err => .error err
  | .ok containers =>
    .ok (containers.foldl (getUpstreamConfigurationFromDocker.step D upstream) [])

/-- Embedding of `getUpstreamConfigurationFromKong` (main.go, lines 177-206). -/
def getUpstreamConfigurationFromKong {σ : Type} (K : kong.Client σ) (upstream : String)
    (s : σ) : Except error UpstreamConfig × σ :=
  match K.RetrieveUpstream upstream s with
  | (.error err, s1) => (.error err, s1)
  | (.ok ups, s1) =>
    match (if ups.isNone then K.UpdateOrCreateUpstream upstream s1 else (none, s1)) with
    | (some err, s2) => (.error err, s2)
    | (none, s2) =>
      match K.ListActiveTargets upstream s2 with
      | (.error err, s3) => (.error err, s3)
      | (.ok targets, s3) =>
        (.ok (targets.Data.foldl (fun config target =>
          GoMap.set config upstream (UpstreamConfig.index config upstream ++ [target.Target]))
          []), s3)

/-- Embedding of `registerUpstreamTargets` (main.go, lines 257-275): the targets are
added with weight 100, the first error ends the loop. -/
def registerUpstreamTargets {σ : Type} (K : kong.Client σ) (upstream : String) :
    List String → σ → Option error × σ
  | [], s => (none, s)
  | target :: rest, s =>
    match K.AddTarget upstream target 100 s with
    | (.error err, s1) => (some err, s1)
    | (.ok _, s1) => registerUpstreamTargets K upstream rest s1

/-- Inner loop of `unRegisterUpstreamTargets` (main.go, lines 287-294): every active
entry whose target is `target` is deleted by its id, the first error ends the function. -/
def unRegisterUpstreamTargets.inner {σ : Type} (K : kong.Client σ) (upstream target : String) :
    List kong.TargetResponse → σ → Option error × σ
  | [], s => (none, s)
  | tgt :: rest, s =>
    if target == tgt.Target then
      match K.DeleteTarget upstream tgt.ID s with
      | (some err, s1) => (some err, s1)
      | (none, s1) => unRegisterUpstreamTargets.inner K upstream target rest s1
    else unRegisterUpstreamTargets.inner K upstream target rest s

/-- Outer loop of `unRegisterUpstreamTargets` (main.go, lines 286-299). -/
def unRegisterUpstreamTargets.outer {σ : Type} (K : kong.Client σ) (upstream : String)
    (data : List kong.TargetResponse) : List String → σ → Option error × σ
  | [], s => (none, s)
  | target :: rest, s =>
    match unRegisterUpstreamTargets.inner K upstream target data s with
    | (some err, s1) => (some err, s1)
    | (none, s1) => unRegisterUpstreamTargets.outer K upstream data rest s1

/-- Embedding of `unRegisterUpstreamTargets` (main.go, lines 277-301). -/
def unRegisterUpstreamTargets {σ : Type} (K : kong.Client σ) (upstream : String)
    (targets : List String) (s : σ) : Option error × σ :=
  match K.ListActiveTargets upstream s with
  | (.error err, s1) => (some err, s1)
  | (.ok activeTargets, s1) =>
    unRegisterUpstreamTargets.outer K upstream activeTargets.Data targets s1

/-- The log entry that ends the processing of one upstream in `synchronizeUpstreams`
(main.go, lines 223, 237, 245 and 252), with its fields. -/
inductive SyncLog where
  | unableToSynchronize (err : error)
  | unableToUnregister (err : error) (targets : List String)
  | unableToRegister (err : error) (targets : List String)
  | synchronized (created removed : List String)
  deriving DecidableEq, Repr

/-- Body of the loop of `synchronizeUpstreams` (main.go, lines 218-252) for one entry
`upstream, dockerTargets` of the desired configuration. Every `continue` and the
end of the body hand back the log entry written there. -/
def synchronizeUpstreams.body {σ : Type} (K : kong.Client σ) (upstream : String)
    (dockerTargets : List String) (s : σ) : SyncLog × σ :=
  match getUpstreamConfigurationFromKong K upstream s with
  | (.error err, s1) => (.unableToSynchronize err, s1)
  | (.ok kongUpstreams, s1) =>
    let kongTargets := UpstreamConfig.index kongUpstreams upstream
    let targetsToRemove := toolkit.Diff kongTargets dockerTargets
    let targetsToCreate := toolkit.Diff dockerTargets kongTargets
    match unRegisterUpstreamTargets K upstream targetsToRemove s1 with
    | (some err, s2) => (.unableToUnregister err targetsToRemove, s2)
    | (none, s2) =>
      match registerUpstreamTargets K upstream targetsToCreate s2 with
      | (some err, s3) => (.unableToRegister err targetsToCreate, s3)
      | (none, s3) => (.synchronized targetsToCreate targetsToRemove, s3)

/-- The loop of `synchronizeUpstreams` (main.go, lines 217-253) over the entries of
the desired configuration, in the order of the `range`; the result lists the log
entry of every upstream. -/
def synchronizeUpstreams.loop {σ : Type} (K : kong.Client σ) :
    List (String × List String) → σ → List (String × SyncLog) × σ
  | [], s => ([], s)
  | (upstream, dockerTargets) :: rest, s =>
    let (entry, s1) := synchronizeUpstreams.body K upstream dockerTargets s
    let (entries, s2) := synchronizeUpstreams.loop K rest s1
    ((upstream, entry) :: entries, s2)

/-- Embedding of `synchronizeUpstreams` (main.go, lines 208-255): the returned error,
the log entries of the upstreams, and the gateway afterwards. -/
def synchronizeUpstreams {σ : Type} (D : DockerClient) (K : kong.Client σ) (s : σ) :
    Option error × List (String × SyncLog) × σ :=
  match getUpstreamConfigurationFromDocker D "" with
  | .error err => (some err, [], s)
  | .ok dockerUpstreams =>
    let (entries, s1) := synchronizeUpstreams.loop K dockerUpstreams s
    (none, entries, s1)

/-- Embedding of `cleanupOrphanUpstream` (main.go, lines 356-395). The index
expression `result.Data[0]` panics on an empty slice. -/
def cleanupOrphanUpstream {σ : Type} (D : DockerClient) (K : kong.Client σ)
    (upstream : String) (s : σ) : Outcome (Option error) × σ :=
  match getUpstreamConfigurationFromDocker D upstream with
  | .error err => (.returned (some err), s)
  | .ok dockerUpstreams =>
    if UpstreamConfig.index dockerUpstreams upstream ≠ [] then (.returned none, s)
    else
      match K.ListActiveTargets upstream s with
      | (.error err, s1) => (.returned (some err), s1)
      | (.ok result, s1) =>
        if result.Total == 1 then
          match result.Data with
          | [] => (.panicked "index out of range [0] with length 0", s1)
          | data0 :: _ =>
            match K.DeleteTarget upstream data0.ID s1 with
            | (some err, s2) => (.returned (some err), s2)
            | (none, s2) => (.returned none, s2)
        else (.returned none, s1)

/-- Embedding of `shouldProcessEvent` (main.go, lines 303-312). -/
def shouldProcessEvent (evt : events.Message) : Bool :=
  let action := evt.Action
  if evt.Type_ == "container" && (action == "start" || action == "die") then
    match GoMap.lookup evt.Actor.Attributes KongUpstreamLabel with
    | some _ => true
    | none => false
  else false

/-- The startup synchronization of `main` (main.go, lines 121-124): an error of
`synchronizeUpstreams` is a panic, otherwise `main` goes on to the event loop. -/
def startup {σ : Type} (D : DockerClient) (K : kong.Client σ) (s : σ) :
    Outcome Unit × σ :=
  match synchronizeUpstreams D K s with
  | (some err, _, s1) => (.panicked err, s1)
  | (none, _, s1) => (.returned (), s1)

/-- The event branch of the loop of `main` (main.go, lines 135-143). -/
def onEvent {σ : Type} (D : DockerClient) (K : kong.Client σ) (evt : events.Message)
    (s : σ) : Outcome Unit × σ :=
  if shouldProcessEvent evt then
    let upstream := (GoMap.lookup evt.Actor.Attributes KongUpstreamLabel).getD ""
    match synchronizeUpstreams D K s with
    | (some _, _, s1) => (.returned (), s1)
    | (none, _, s1) =>
      if evt.Action == "die" then
        match cleanupOrphanUpstream D K upstream s1 with
        | (.returned _, s2) => (.returned (), s2)
        | (.panicked msg, s2) => (.panicked msg, s2)
      else (.returned (), s1)
  else (.returned (), s)

end main
/-! ## pkg/kong/api.go: the remaining requests, and the client over HTTP -/

namespace kong

/-- Target light response object (types.go, lines 44-47). -/
structure LightTargetListResponse where
  Total : Nat
  deriving DecidableEq, Repr

namespace api

/-- Embedding of `Client.ListActiveTargets` (api.go, lines 101-152). `get` is the
outcome of `k.get("/upstreams/"+upstream+"/targets/active", nil)` and `readAll` stands
for `ioutil.ReadAll` on the body of the response. `unmarshalLight` and `unmarshalFull`
stand for the two calls `json.Unmarshal(body, &v)`, with `v` a zero
`LightTargetListResponse` and a zero `TargetListResponse`: they give the value left in
`v` and the error of the call. The Go result is `(nil, err)` or `(&result, nil)`. -/
def ListActiveTargets (unmarshalLight : String → LightTargetListResponse × Option error)
    (unmarshalFull : String → TargetListResponse × Option error)
    (readAll : String → Except error String) (get : Except error Response) :
    Except error TargetListResponse :=
  match get with
  | .error err => .error err
  | .ok res =>
    match readAll res.Body with
    | .error err => .error err
    | .ok body =>
      if res.StatusCode ≥ 400 then .error res.Status
      else
        match unmarshalLight body with
        | (_, some err) => .error err
        | (lightResult, none) =>
          if lightResult.Total == 0 then .ok ⟨0, []⟩
          else
            match unmarshalFull body with
            | (_, some err) => .error err
            | (result, none) => .ok result

/-- Embedding of `Client.UpdateOrCreateUpstream` (api.go, lines 60-79); `post` is the
outcome of `k.post("/upstreams", nil, buf)`. -/
def UpdateOrCreateUpstream (post : Except error Response) : Option error :=
  match post with
  | .error err => some err
  | .ok res => if res.StatusCode ≥ 400 then some res.Status else none

/-- Embedding of `Client.AddTarget` (api.go, lines 155-178); `post` is the outcome of
`k.post("/upstreams/"+upstream+"/targets", nil, buf)` and `decode` stands for
`json.NewDecoder(res.Body).Decode(&result)`. The result is the Go pair. -/
def AddTarget (decode : String → TargetResponse × Option error) (post : Except error Response) :
    Option TargetResponse × Option error :=
  match post with
  | .error err => (none, some err)
  | .ok res =>
    if res.StatusCode ≥ 400 then (none, some res.Status)
    else
      let (result, err) := decode res.Body
      (some result, err)

/-- What the client is built on: the three request helpers of client.go over a server
whose state has type `σ` (`post` takes the path and the encoded request), and the
library functions that encode a request and read and decode a response. -/
structure Http (σ : Type) where
  get : String → σ → Except error Response × σ
  post : String → String → σ → Except error Response × σ
  delete : String → σ → Except error Response × σ
  readAll : String → Except error String
  unmarshalLight : String → LightTargetListResponse × Option error
  unmarshalFull : String → TargetListResponse × Option error
  decodeUpstream : String → UpstreamResponse × Option error
  decodeTarget : String → TargetResponse × Option error
  encodeUpstreamRequest : String → String
  encodeTargetRequest : String → Nat → String

/-- The client of api.go as main.go sees it. A pair `(value, err)` with `err != nil`
is an error for the callers, whatever the value; `AddTarget` returns a non-nil pointer
whenever its error is `nil`. -/
def client {σ : Type} (H : Http σ) : Client σ where
  RetrieveUpstream name s :=
    let (res, s1) := H.get ("/upstreams/" ++ name) s
    match RetrieveUpstream H.decodeUpstream res with
    | (_, some err) => (.error err, s1)
    | (ups, none) => (.ok ups, s1)
  UpdateOrCreateUpstream name s :=
    let (res, s1) := H.post "/upstreams" (H.encodeUpstreamRequest name) s
    (UpdateOrCreateUpstream res, s1)
  ListActiveTargets upstream s :=
    let (res, s1) := H.get ("/upstreams/" ++ upstream ++ "/targets/active") s
    (ListActiveTargets H.unmarshalLight H.unmarshalFull H.readAll res, s1)
  AddTarget upstream target weight s :=
    let (res, s1) := H.post ("/upstreams/" ++ upstream ++ "/targets")
      (H.encodeTargetRequest target weight) s
    match AddTarget H.decodeTarget res with
    | (_, some err) => (.error err, s1)
    | (tgt, none) => (.ok (tgt.getD ⟨"", "", 0, "", 0⟩), s1)
  DeleteTarget upstream targetID s :=
    let (res, s1) := H.delete ("/upstreams/" ++ upstream ++ "/targets/" ++ targetID) s
    (DeleteTarget res, s1)

end api

end kong

/-! ## Concrete inputs used by the closed statements -/

namespace sample

/-- A gateway in which no upstream exists and no request fails. -/
def emptyGateway : kong.Gateway := fun _ => ⟨false, [], 0, [], []⟩

/-- A runtime with one running container labelled for the upstream `web`, exposing
`8080/tcp`, with the direct address `172.17.0.5`. -/
def dockerDirect : DockerClient where
  ContainerList := .ok [⟨"c1", "running", [("kong.upstream", "web")]⟩]
  ContainerInspect := fun _ =>
    .ok ⟨"c1", "/c1", ⟨["8080/tcp"]⟩, ⟨"172.17.0.5", [("bridge", ⟨"172.17.0.5"⟩)]⟩, ⟨"default"⟩⟩

/-- A runtime with one running container labelled for the upstream `web`, exposing
`8080/tcp`, with no direct address, no attached network and the network mode `none`. -/
def dockerNoAddress : DockerClient where
  ContainerList := .ok [⟨"c1", "running", [("kong.upstream", "web")]⟩]
  ContainerInspect := fun _ => .ok ⟨"c1", "/c1", ⟨["8080/tcp"]⟩, ⟨"", []⟩, ⟨"none"⟩⟩

/-- A runtime without any container. -/
def dockerEmpty : DockerClient where
  ContainerList := .ok []
  ContainerInspect := fun _ => .error "No such container"

/-- A gateway in which the first request for the upstream `web` fails. -/
def faultyGateway : kong.Gateway := fun _ => ⟨false, [], 0, [true], []⟩

/-- A gateway in which every upstream exists with the one active target `10.0.0.1:80`. -/
def oneTargetGateway : kong.Gateway :=
  fun _ => ⟨true, [⟨"t1", "10.0.0.1:80", 100, "web", 0⟩], 0, [], []⟩

/-- A gateway in which every upstream exists with the active targets `10.0.0.1:80`
and `10.0.0.2:80`. -/
def twoTargetsGateway : kong.Gateway :=
  fun _ => ⟨true, [⟨"t1", "10.0.0.1:80", 100, "web", 0⟩, ⟨"t2", "10.0.0.2:80", 100, "web", 0⟩],
    0, [], []⟩

/-- The desired targets `10.0.0.2:80` and `10.0.0.3:80`. -/
def desired : List String := ["10.0.0.2:80", "10.0.0.3:80"]

/-- A desired configuration with the upstreams `web` and `api`. -/
def entries : List (String × List String) :=
  [("web", ["10.0.0.1:80"]), ("api", ["10.0.0.9:80"])]

/-- A gateway without upstream, in which the third request for `web` fails (the
listing of the active targets) and no request for another upstream does. -/
def webFaultyGateway : kong.Gateway :=
  fun u => if u == "web" then ⟨false, [], 0, [false, false, true], []⟩ else ⟨false, [], 0, [], []⟩

/-- A `network` event whose actor carries the upstream label. -/
def networkEvent : events.Message := ⟨"network", "start", ⟨"c1", [("kong.upstream", "web")]⟩⟩

/-- The body `{"total":1}`: a total of one and no member `data`. -/
def totalOnlyBody : String := "\x7b\"total\":1\x7d"

/-- What `json.Unmarshal` leaves in a zero `LightTargetListResponse` for the body
`{"total":1}`: the total 1, without error. No other text is decoded here. -/
def unmarshalLight (data : String) : kong.LightTargetListResponse × Option error :=
  if data == totalOnlyBody then (⟨1⟩, none) else (⟨0⟩, some "unexpected end of JSON input")

/-- What `json.Unmarshal` leaves in a zero `TargetListResponse` for the body
`{"total":1}`: the total 1 and, the member `data` being absent, the nil slice, without
error. No other text is decoded here. -/
def unmarshalFull (data : String) : kong.TargetListResponse × Option error :=
  if data == totalOnlyBody then (⟨1, []⟩, none)
  else (⟨0, []⟩, some "unexpected end of JSON input")

/-- A server that answers every GET with the status 200 and the given body, and every
POST and DELETE with a success status and no body. -/
def server (body : String) : kong.api.Http Unit where
  get _ s := (.ok ⟨200, "200 OK", body⟩, s)
  post _ _ s := (.ok ⟨201, "201 Created", ""⟩, s)
  delete _ s := (.ok ⟨204, "204 No Content", ""⟩, s)
  readAll b := .ok b
  unmarshalLight := unmarshalLight
  unmarshalFull := unmarshalFull
  decodeUpstream _ := (⟨"", "", 0, 0⟩, none)
  decodeTarget _ := (⟨"", "", 0, "", 0⟩, none)
  encodeUpstreamRequest _ := ""
  encodeTargetRequest _ _ := ""

/-- The active target `t1`. -/
def target1 : kong.TargetResponse := ⟨"t1", "10.0.0.1:80", 100, "web", 0⟩

/-- The active target `t2`. -/
def target2 : kong.TargetResponse := ⟨"t2", "10.0.0.2:80", 100, "web", 0⟩

/-- A gateway client that answers every listing of active targets with the response
`r` and every other request with success. -/
def listingClient (r : kong.TargetListResponse) : kong.Client Unit where
  RetrieveUpstream _ s := (.ok none, s)
  UpdateOrCreateUpstream _ s := (none, s)
  ListActiveTargets _ s := (.ok r, s)
  AddTarget upstream target weight s := (.ok ⟨"", target, weight, upstream, 0⟩, s)
  DeleteTarget _ _ s := (none, s)

end sample

/-! ## Lemmas on maps and on `Diff` -/

theorem GoMap.lookup_set {α : Type} (m : GoMap α) (k k' : String) (v : α) :
    GoMap.lookup (GoMap.set m k v) k' = if k = k' then some v else GoMap.lookup m k' := by
  induction m with
  | nil =>
    by_cases h : k = k'
    · subst h; simp [GoMap.set, GoMap.lookup, List.lookup]
    · have h' : (k' == k) = false := by simpa using fun e => h e.symm
      simp [GoMap.set, GoMap.lookup, List.lookup, h, h']
  | cons p rest ih =>
    obtain ⟨k0, v0⟩ := p
    unfold GoMap.lookup at ih ⊢
    by_cases h0 : k0 = k
    · subst h0
      by_cases h : k0 = k'
      · subst h; simp [GoMap.set, List.lookup]
      · have h' : (k' == k0) = false := by simpa using fun e => h e.symm
        simp [GoMap.set, List.lookup, h, h']
    · have h0' : (k0 == k) = false := by simpa using h0
      by_cases h1 : k' = k0
      · subst h1
        have : ¬ k = k' := fun e => h0 e.symm
        simp [GoMap.set, List.lookup, h0', this]
      · have h1' : (k' == k0) = false := by simpa using h1
        simp only [GoMap.set, h0', List.lookup, h1']
        simpa using ih

theorem GoMap.lookup_foldl_set_isSome (b : List String) (m : GoMap Unit) (x : String) :
    (GoMap.lookup (b.foldl (fun m val => GoMap.set m val ()) m) x).isSome
      = (decide (x ∈ b) || (GoMap.lookup m x).isSome) := by
  induction b generalizing m with
  | nil => simp
  | cons y ys ih =>
    simp only [List.foldl_cons, ih, GoMap.lookup_set, List.mem_cons]
    by_cases h : y = x
    · subst h; simp
    · have : ¬ x = y := fun e => h e.symm
      simp [h, this]

theorem toolkit.foldl_append_filter (p : String → Bool) (a acc : List String) :
    a.foldl (fun diff val => if p val then diff ++ [val] else diff) acc = acc ++ a.filter p := by
  induction a generalizing acc with
  | nil => simp
  | cons x xs ih =>
    by_cases h : p x <;> simp [List.foldl_cons, ih, h, List.filter_cons]

theorem toolkit.Diff_eq_filter (a b : List String) :
    toolkit.Diff a b = a.filter (fun x => decide (x ∉ b)) := by
  unfold toolkit.Diff
  simp only []
  rw [toolkit.foldl_append_filter (fun val =>
    (GoMap.lookup (b.foldl (fun m val => GoMap.set m val ()) []) val).isNone)]
  simp only [List.nil_append]
  apply List.filter_congr
  intro x _
  have h := GoMap.lookup_foldl_set_isSome b [] x
  have h2 : (GoMap.lookup ([] : GoMap Unit) x).isSome = false := by simp [GoMap.lookup]
  rw [h2, Bool.or_false] at h
  have h3 : ∀ o : Option Unit, o.isNone = !o.isSome := by intro o; cases o <;> rfl
  rw [h3, h]
  simp

theorem toolkit.mem_Diff (a b : List String) (x : String) :
    x ∈ toolkit.Diff a b ↔ x ∈ a ∧ x ∉ b := by
  simp [toolkit.Diff_eq_filter]

/-! ## Claims on `Diff` -/

/-- C1: `Diff a b` is `a` filtered by "is no element of `b`" (order and duplicates
of `a` kept); hence `Diff a a = []`, `Diff [] b = []` and `Diff a [] = a`. -/
theorem C1_Diff_is_filter (a b : List String) :
    toolkit.Diff a b = a.filter (fun x => decide (x ∉ b))
    ∧ toolkit.Diff a a = []
    ∧ toolkit.Diff [] b = []
    ∧ toolkit.Diff a [] = a := by
  refine ⟨toolkit.Diff_eq_filter a b, ?_, ?_, ?_⟩
  · rw [toolkit.Diff_eq_filter]; simp
  · rw [toolkit.Diff_eq_filter]; simp
  · rw [toolkit.Diff_eq_filter]; simp

/-- C2 (counterexample): on `a = ["a"]`, `b = ["b"]` the result is `["a"]`: the returned
item is no item of `b`, and `"b"`, the item of `b` that is not in `a`, is not returned. -/
theorem C2_counterexample :
    toolkit.Diff ["a"] ["b"] = ["a"] ∧ "a" ∉ ["b"] ∧ "b" ∉ toolkit.Diff ["a"] ["b"] := by
  decide

/-- C2 (amended): `Diff a b` returns the items of `a` that are not in `b`: a string is
in the result exactly when it is in `a` and not in `b`. -/
theorem C2_Diff_items_of_a_not_in_b (a b : List String) (x : String) :
    x ∈ toolkit.Diff a b ↔ x ∈ a ∧ x ∉ b := by
  rw [toolkit.Diff_eq_filter]
  simp

/-! ## The event filter -/

theorem GoMap.lookup_isSome_iff {α : Type} (m : GoMap α) (k : String) :
    (GoMap.lookup m k).isSome = true ↔ k ∈ m.map Prod.fst := by
  induction m with
  | nil => simp [GoMap.lookup, List.lookup]
  | cons p rest ih =>
    obtain ⟨k0, v0⟩ := p
    unfold GoMap.lookup at ih ⊢
    by_cases h : k = k0
    · subst h; simp [List.lookup]
    · have h' : (k == k0) = false := by simpa using h
      simp only [List.lookup, h', List.map_cons, List.mem_cons, h, false_or]
      exact ih

theorem main.shouldProcessEvent_iff (evt : events.Message) :
    main.shouldProcessEvent evt = true ↔
      evt.Type_ = "container" ∧ (evt.Action = "start" ∨ evt.Action = "die")
        ∧ "kong.upstream" ∈ evt.Actor.Attributes.map Prod.fst := by
  rw [← GoMap.lookup_isSome_iff]
  unfold main.shouldProcessEvent main.KongUpstreamLabel
  cases hl : GoMap.lookup evt.Actor.Attributes "kong.upstream" <;>
    by_cases h1 : evt.Type_ = "container" <;>
    by_cases h2 : evt.Action = "start" <;>
    by_cases h3 : evt.Action = "die" <;>
    simp [h1, h2, h3]

/-- C5: `shouldProcessEvent` is true exactly for an event of type `container` whose
action is `start` or `die` and whose actor has the attribute key `kong.upstream`; an
event of type `network`, or with the action `stop`, does not pass the filter, and the
event branch of `main` then leaves the gateway untouched. -/
theorem C5_shouldProcessEvent_iff (evt : events.Message) :
    (main.shouldProcessEvent evt = true ↔
      evt.Type_ = "container" ∧ (evt.Action = "start" ∨ evt.Action = "die")
        ∧ "kong.upstream" ∈ evt.Actor.Attributes.map Prod.fst)
    ∧ ((evt.Type_ = "network" ∨ evt.Action = "stop") →
        main.shouldProcessEvent evt = false
        ∧ ∀ (σ : Type) (D : DockerClient) (K : kong.Client σ) (s : σ),
            main.onEvent D K.recording evt (s, []) = (Outcome.returned (), (s, []))) := by
  refine ⟨main.shouldProcessEvent_iff evt, ?_⟩
  intro h
  have hf : main.shouldProcessEvent evt = false := by
    rw [← Bool.not_eq_true, main.shouldProcessEvent_iff]
    rintro ⟨h1, h2, _⟩
    rcases h with h | h
    · rw [h1] at h; exact absurd h (by decide)
    · rcases h2 with h2 | h2 <;> rw [h2] at h <;> exact absurd h (by decide)
  refine ⟨hf, ?_⟩
  intro σ D K s
  simp [main.onEvent, hf]

/-- C5 (witness): a `network` event carrying the upstream label does not pass the filter. -/
theorem C5_witness :
    main.shouldProcessEvent sample.networkEvent = false
    ∧ main.onEvent sample.dockerDirect kong.model.recording sample.networkEvent
        (sample.emptyGateway, []) = (Outcome.returned (), (sample.emptyGateway, [])) :=
  ⟨((C5_shouldProcessEvent_iff sample.networkEvent).2 (Or.inl rfl)).1,
   ((C5_shouldProcessEvent_iff sample.networkEvent).2 (Or.inl rfl)).2 _ _ _ _⟩

/-! ## The container target resolver -/

/-- C6 (the code at the failing input): for a running container labelled `web` that
exposes `8080/tcp` and has no direct address, no attached network and a network mode
other than `host`, `getContainerTarget` returns the target `:8080` without error and
`getUpstreamConfigurationFromDocker` appends it to the list of `web`. -/
theorem C6_no_address_target_is_appended :
    main.getContainerTarget sample.dockerNoAddress "c1" = (":8080", none)
    ∧ main.getUpstreamConfigurationFromDocker sample.dockerNoAddress ""
        = .ok [("web", [":8080"])] := by
  constructor <;> rfl

/-- C7: when the inspected container has a non-empty direct address and a first exposed
port key `port0`, `getContainerTarget` returns, without error, the direct address, a
colon and the leading run of decimal digits of `port0`, whatever the attached networks
and the network mode are; when the container exposes no port it returns the empty
target without error. -/
theorem C7_getContainerTarget_direct_address (D : DockerClient) (ID : String)
    (container : types.ContainerJSON) (hinspect : D.ContainerInspect ID = .ok container) :
    (∀ port0 ports, container.NetworkSettings.IPAddress ≠ "" →
        container.Config.ExposedPorts = port0 :: ports →
        main.getContainerTarget D ID =
          (container.NetworkSettings.IPAddress ++ ":"
            ++ String.mk (port0.toList.takeWhile (fun c => decide ('0' ≤ c ∧ c ≤ '9'))), none))
    ∧ (container.Config.ExposedPorts = [] → main.getContainerTarget D ID = ("", none)) := by
  constructor
  · intro port0 ports hip hports
    simp [main.getContainerTarget, hinspect, hports, hip, main.portRE.FindString]
  · intro hports
    simp [main.getContainerTarget, hinspect, hports]

/-- C7 (witness): the port `8080/tcp` and the direct address `172.17.0.5` give the
target `172.17.0.5:8080`. -/
theorem C7_witness :
    main.getContainerTarget sample.dockerDirect "c1" = ("172.17.0.5:8080", none) :=
  (C7_getContainerTarget_direct_address sample.dockerDirect "c1" _ rfl).1
    "8080/tcp" [] (by decide) rfl

/-! ## Status handling of the gateway client -/

/-- C10: for a response obtained without transport error, the status 404 makes
`RetrieveUpstream` return the absent upstream without error and `DeleteTarget` return
no error; every other status from 400 on makes both return an error; and
`DeleteTarget` returns no error on every status below 400. -/
theorem C10_status_handling (decode : String → kong.UpstreamResponse × Option error)
    (res : kong.Response) :
    (res.StatusCode = 404 →
        kong.api.RetrieveUpstream decode (.ok res) = (none, none)
        ∧ kong.api.DeleteTarget (.ok res) = none)
    ∧ (400 ≤ res.StatusCode → res.StatusCode ≠ 404 →
        kong.api.RetrieveUpstream decode (.ok res) = (none, some res.Status)
        ∧ kong.api.DeleteTarget (.ok res) = some res.Status)
    ∧ (res.StatusCode < 400 → kong.api.DeleteTarget (.ok res) = none) := by
  refine ⟨?_, ?_, ?_⟩
  · intro h
    simp [kong.api.RetrieveUpstream, kong.api.DeleteTarget, h]
  · intro h1 h2
    simp [kong.api.RetrieveUpstream, kong.api.DeleteTarget, h1, h2]
  · intro h
    have h1 : res.StatusCode ≠ 404 := by omega
    have h2 : ¬ 400 ≤ res.StatusCode := by omega
    simp [kong.api.DeleteTarget, h1, h2]

/-- C10 (witness): the statuses 404, 500 and 204. -/
theorem C10_witness :
    (kong.api.RetrieveUpstream (fun _ => (⟨"", "", 0, 0⟩, none)) (.ok ⟨404, "404 Not Found", ""⟩)
        = (none, none)
      ∧ kong.api.DeleteTarget (.ok ⟨404, "404 Not Found", ""⟩) = none)
    ∧ (kong.api.RetrieveUpstream (fun _ => (⟨"", "", 0, 0⟩, none))
          (.ok ⟨500, "500 Internal Server Error", ""⟩) = (none, some "500 Internal Server Error")
      ∧ kong.api.DeleteTarget (.ok ⟨500, "500 Internal Server Error", ""⟩)
          = some "500 Internal Server Error")
    ∧ kong.api.DeleteTarget (.ok ⟨204, "204 No Content", ""⟩) = none :=
  ⟨(C10_status_handling _ ⟨404, "404 Not Found", ""⟩).1 rfl,
   (C10_status_handling _ ⟨500, "500 Internal Server Error", ""⟩).2.1 (by decide) (by decide),
   (C10_status_handling (fun _ => (⟨"", "", 0, 0⟩, none)) ⟨204, "204 No Content", ""⟩).2.2
     (by decide)⟩

/-! ## The orphan cleaner -/

/-- C4 (counterexample): the upstream `web` has no desired target. When the gateway
lists the one entry `t1` with the total 2, nothing is deleted; when it lists the two
entries `t1` and `t2` with the total 1, `t1` is deleted; and when it lists no entry with
the total 1, `cleanupOrphanUpstream` panics on `result.Data[0]`. -/
theorem C4_counterexample :
    (main.cleanupOrphanUpstream sample.dockerEmpty
        (sample.listingClient ⟨2, [sample.target1]⟩).recording "web" ((), []))
      = (Outcome.returned none, ((), [kong.Call.ListActiveTargets "web"]))
    ∧ (main.cleanupOrphanUpstream sample.dockerEmpty
        (sample.listingClient ⟨1, [sample.target1, sample.target2]⟩).recording "web" ((), []))
      = (Outcome.returned none,
          ((), [kong.Call.ListActiveTargets "web", kong.Call.DeleteTarget "web" "t1"]))
    ∧ (main.cleanupOrphanUpstream sample.dockerEmpty
        (sample.listingClient ⟨1, []⟩).recording "web" ((), []))
      = (Outcome.panicked "index out of range [0] with length 0",
          ((), [kong.Call.ListActiveTargets "web"])) := by
  refine ⟨rfl, rfl, rfl⟩

/-- C4 (amended): for every gateway client, `cleanupOrphanUpstream` issues a target
deletion exactly when the desired configuration resolved for the upstream has no
target and the listing of the gateway has the total 1 and at least one entry; its
requests are then the listing and one deletion, of the first listed entry by its id;
and when the upstream has a desired target, or the total of the listing is not 1, no
mutating request is issued and no error is returned. -/
theorem C4_cleanupOrphanUpstream_by_total {σ : Type} (D : DockerClient) (K : kong.Client σ)
    (upstream : String) (s : σ) :
    ((∃ id, kong.Call.DeleteTarget upstream id
          ∈ (main.cleanupOrphanUpstream D K.recording upstream (s, [])).2.2) ↔
        ∃ desired r, main.getUpstreamConfigurationFromDocker D upstream = .ok desired
          ∧ main.UpstreamConfig.index desired upstream = []
          ∧ (K.ListActiveTargets upstream s).1 = .ok r ∧ r.Total = 1 ∧ r.Data ≠ [])
    ∧ (∀ desired r t rest, main.getUpstreamConfigurationFromDocker D upstream = .ok desired →
        main.UpstreamConfig.index desired upstream = [] →
        (K.ListActiveTargets upstream s).1 = .ok r → r.Total = 1 → r.Data = t :: rest →
        (main.cleanupOrphanUpstream D K.recording upstream (s, [])).2.2
          = [kong.Call.ListActiveTargets upstream, kong.Call.DeleteTarget upstream t.ID])
    ∧ (∀ desired, main.getUpstreamConfigurationFromDocker D upstream = .ok desired →
        (main.UpstreamConfig.index desired upstream ≠ []
          ∨ ∃ r, (K.ListActiveTargets upstream s).1 = .ok r ∧ r.Total ≠ 1) →
        (main.cleanupOrphanUpstream D K.recording upstream (s, [])).1 = Outcome.returned none
        ∧ ∀ c ∈ (main.cleanupOrphanUpstream D K.recording upstream (s, [])).2.2,
            c.mutates = false) := by
  rcases hD : main.getUpstreamConfigurationFromDocker D upstream with err | desired
  · simp [main.cleanupOrphanUpstream, hD]
  · by_cases hidx : main.UpstreamConfig.index desired upstream = []
    · rcases hL : K.ListActiveTargets upstream s with ⟨res, s1⟩
      rcases res with err | r
      · simp [main.cleanupOrphanUpstream, hD, hidx, kong.Client.recording, hL]
      · by_cases ht : r.Total = 1
        · rcases hdata : r.Data with _ | ⟨t, rest⟩
          · simp [main.cleanupOrphanUpstream, hD, hidx, kong.Client.recording, hL, ht, hdata]
            intro _ r1 t1 rest1 _ _ hr _ hd
            subst hr
            rw [hdata] at hd
            exact absurd hd (by simp)
          · rcases hdel : K.DeleteTarget upstream t.ID s1 with ⟨e, s2⟩
            have hfin : ∀ (desired1 : main.UpstreamConfig) (r1 : kong.TargetListResponse)
                (t1 : kong.TargetResponse) (rest1 : List kong.TargetResponse),
                desired = desired1 → main.UpstreamConfig.index desired1 upstream = [] →
                r = r1 → r1.Total = 1 → r1.Data = t1 :: rest1 → t.ID = t1.ID := by
              intro _ r1 t1 rest1 _ _ hr _ hd
              subst hr
              rw [hdata] at hd
              simp only [List.cons.injEq] at hd
              rw [hd.1]
            cases e <;>
              simp [main.cleanupOrphanUpstream, hD, hidx, kong.Client.recording, hL, ht, hdata,
                hdel] <;> exact hfin
        · simp [main.cleanupOrphanUpstream, hD, hidx, kong.Client.recording, hL, ht,
            kong.Call.mutates]
          intro _ r1 t1 rest1 _ _ hr h1
          subst hr
          exact absurd h1 ht
    · simp [main.cleanupOrphanUpstream, hD, hidx]
      intro _ _ _ _ hd h
      subst hd
      exact absurd h hidx

/-- C4 (witness): no desired target and the one listed entry `t1` with the total 1:
`t1` is deleted; the two listed entries `t1` and `t2` with the total 2: nothing is. -/
theorem C4_witness :
    (main.cleanupOrphanUpstream sample.dockerEmpty
        (sample.listingClient ⟨1, [sample.target1]⟩).recording "web" ((), [])).2.2
      = [kong.Call.ListActiveTargets "web", kong.Call.DeleteTarget "web" "t1"]
    ∧ ((main.cleanupOrphanUpstream sample.dockerEmpty
          (sample.listingClient ⟨2, [sample.target1, sample.target2]⟩).recording "web"
          ((), [])).1 = Outcome.returned none
      ∧ ∀ c ∈ (main.cleanupOrphanUpstream sample.dockerEmpty
          (sample.listingClient ⟨2, [sample.target1, sample.target2]⟩).recording "web"
          ((), [])).2.2, c.mutates = false) :=
  ⟨(C4_cleanupOrphanUpstream_by_total sample.dockerEmpty
      (sample.listingClient ⟨1, [sample.target1]⟩) "web" ()).2.1
      [] ⟨1, [sample.target1]⟩ sample.target1 [] rfl rfl rfl rfl rfl,
   (C4_cleanupOrphanUpstream_by_total sample.dockerEmpty
      (sample.listingClient ⟨2, [sample.target1, sample.target2]⟩) "web" ()).2.2 [] rfl
      (Or.inr ⟨_, rfl, by decide⟩)⟩

/-! ## The startup synchronization -/

/-- C9 (counterexample): with one desired upstream `web` and a gateway whose first
request for `web` fails, retrieving the upstream fails and is logged, yet
`synchronizeUpstreams` returns no error and `main` goes on to the event loop. -/
theorem C9_counterexample :
    (main.synchronizeUpstreams sample.dockerDirect kong.model sample.faultyGateway).2.1
      = [("web", main.SyncLog.unableToSynchronize "500 Internal Server Error")]
    ∧ (main.synchronizeUpstreams sample.dockerDirect kong.model sample.faultyGateway).1 = none
    ∧ (main.startup sample.dockerDirect kong.model sample.faultyGateway).1
        = Outcome.returned () := by
  refine ⟨?_, ?_, ?_⟩ <;> rfl

/-- C9 (amended): `synchronizeUpstreams` returns an error, which `main` turns into a
panic at startup, exactly when listing the containers fails; when the listing succeeds
it returns no error whatever the log entries of the upstreams are, and `main` goes on
to the event loop. -/
theorem C9_startup_fatal_iff_listing_fails {σ : Type} (D : DockerClient) (K : kong.Client σ)
    (s : σ) :
    ((main.synchronizeUpstreams D K s).1 ≠ none ↔ ∃ err, D.ContainerList = .error err)
    ∧ ((∃ msg, (main.startup D K s).1 = Outcome.panicked msg)
        ↔ ∃ err, D.ContainerList = .error err)
    ∧ ((∃ containers, D.ContainerList = .ok containers) →
        (main.synchronizeUpstreams D K s).1 = none
        ∧ (main.startup D K s).1 = Outcome.returned ()) := by
  rcases hL : D.ContainerList with err | containers
  · simp [main.synchronizeUpstreams, main.startup, main.getUpstreamConfigurationFromDocker, hL]
  · simp [main.synchronizeUpstreams, main.startup, main.getUpstreamConfigurationFromDocker, hL]

/-- C9 (witness): the listing succeeds, so no error is returned at startup. -/
theorem C9_witness :
    (main.synchronizeUpstreams sample.dockerDirect kong.model sample.faultyGateway).1 = none
    ∧ (main.startup sample.dockerDirect kong.model sample.faultyGateway).1
        = Outcome.returned () :=
  (C9_startup_fatal_iff_listing_fails sample.dockerDirect kong.model sample.faultyGateway).2.2
    ⟨_, rfl⟩

/-! ## The gateway model acts upstream by upstream -/

theorem kong.model_RetrieveUpstream (u : String) (g : kong.Gateway) (st : kong.UpstreamState) :
    kong.model.RetrieveUpstream u (Function.update g u st)
      = ((kong.upstreamModel.RetrieveUpstream u st).1,
         Function.update g u (kong.upstreamModel.RetrieveUpstream u st).2) := by
  simp [kong.model, kong.Gateway.onUpstream]

theorem kong.model_UpdateOrCreateUpstream (u : String) (g : kong.Gateway)
    (st : kong.UpstreamState) :
    kong.model.UpdateOrCreateUpstream u (Function.update g u st)
      = ((kong.upstreamModel.UpdateOrCreateUpstream u st).1,
         Function.update g u (kong.upstreamModel.UpdateOrCreateUpstream u st).2) := by
  simp [kong.model, kong.Gateway.onUpstream]

theorem kong.model_ListActiveTargets (u : String) (g : kong.Gateway) (st : kong.UpstreamState) :
    kong.model.ListActiveTargets u (Function.update g u st)
      = ((kong.upstreamModel.ListActiveTargets u st).1,
         Function.update g u (kong.upstreamModel.ListActiveTargets u st).2) := by
  simp [kong.model, kong.Gateway.onUpstream]

theorem kong.model_AddTarget (u target : String) (weight : Nat) (g : kong.Gateway)
    (st : kong.UpstreamState) :
    kong.model.AddTarget u target weight (Function.update g u st)
      = ((kong.upstreamModel.AddTarget u target weight st).1,
         Function.update g u (kong.upstreamModel.AddTarget u target weight st).2) := by
  simp [kong.model, kong.Gateway.onUpstream]

theorem kong.model_DeleteTarget (u targetID : String) (g : kong.Gateway)
    (st : kong.UpstreamState) :
    kong.model.DeleteTarget u targetID (Function.update g u st)
      = ((kong.upstreamModel.DeleteTarget u targetID st).1,
         Function.update g u (kong.upstreamModel.DeleteTarget u targetID st).2) := by
  simp [kong.model, kong.Gateway.onUpstream]

theorem main.registerUpstreamTargets_model (u : String) (targets : List String)
    (g : kong.Gateway) (st : kong.UpstreamState) :
    main.registerUpstreamTargets kong.model u targets (Function.update g u st)
      = ((main.registerUpstreamTargets kong.upstreamModel u targets st).1,
         Function.update g u (main.registerUpstreamTargets kong.upstreamModel u targets st).2) := by
  induction targets generalizing st with
  | nil => rfl
  | cons target rest ih =>
    unfold main.registerUpstreamTargets
    rw [kong.model_AddTarget]
    rcases h : kong.upstreamModel.AddTarget u target 100 st with ⟨r, st1⟩
    cases r with
    | error err => rfl
    | ok tgt => exact ih st1

theorem main.unRegisterUpstreamTargets_inner_model (u target : String)
    (data : List kong.TargetResponse) (g : kong.Gateway) (st : kong.UpstreamState) :
    main.unRegisterUpstreamTargets.inner kong.model u target data (Function.update g u st)
      = ((main.unRegisterUpstreamTargets.inner kong.upstreamModel u target data st).1,
         Function.update g u
           (main.unRegisterUpstreamTargets.inner kong.upstreamModel u target data st).2) := by
  induction data generalizing st with
  | nil => rfl
  | cons tgt rest ih =>
    unfold main.unRegisterUpstreamTargets.inner
    by_cases hm : (target == tgt.Target) = true
    · rw [if_pos hm, if_pos hm, kong.model_DeleteTarget]
      rcases h : kong.upstreamModel.DeleteTarget u tgt.ID st with ⟨r, st1⟩
      cases r with
      | some err => rfl
      | none => exact ih st1
    · rw [if_neg hm, if_neg hm]
      exact ih st

theorem main.unRegisterUpstreamTargets_outer_model (u : String)
    (data : List kong.TargetResponse) (targets : List String) (g : kong.Gateway)
    (st : kong.UpstreamState) :
    main.unRegisterUpstreamTargets.outer kong.model u data targets (Function.update g u st)
      = ((main.unRegisterUpstreamTargets.outer kong.upstreamModel u data targets st).1,
         Function.update g u
           (main.unRegisterUpstreamTargets.outer kong.upstreamModel u data targets st).2) := by
  induction targets generalizing st with
  | nil => rfl
  | cons target rest ih =>
    unfold main.unRegisterUpstreamTargets.outer
    rw [main.unRegisterUpstreamTargets_inner_model]
    rcases h : main.unRegisterUpstreamTargets.inner kong.upstreamModel u target data st
      with ⟨r, st1⟩
    cases r with
    | some err => rfl
    | none => exact ih st1

theorem main.unRegisterUpstreamTargets_model (u : String) (targets : List String)
    (g : kong.Gateway) (st : kong.UpstreamState) :
    main.unRegisterUpstreamTargets kong.model u targets (Function.update g u st)
      = ((main.unRegisterUpstreamTargets kong.upstreamModel u targets st).1,
         Function.update g u
           (main.unRegisterUpstreamTargets kong.upstreamModel u targets st).2) := by
  unfold main.unRegisterUpstreamTargets
  rw [kong.model_ListActiveTargets]
  rcases h : kong.upstreamModel.ListActiveTargets u st with ⟨r, st1⟩
  cases r with
  | error err => rfl
  | ok active => exact main.unRegisterUpstreamTargets_outer_model u _ _ g st1

theorem main.getUpstreamConfigurationFromKong_model (u : String) (g : kong.Gateway)
    (st : kong.UpstreamState) :
    main.getUpstreamConfigurationFromKong kong.model u (Function.update g u st)
      = ((main.getUpstreamConfigurationFromKong kong.upstreamModel u st).1,
         Function.update g u (main.getUpstreamConfigurationFromKong kong.upstreamModel u st).2) := by
  unfold main.getUpstreamConfigurationFromKong
  rw [kong.model_RetrieveUpstream]
  rcases h : kong.upstreamModel.RetrieveUpstream u st with ⟨r, st1⟩
  cases r with
  | error err => rfl
  | ok ups =>
    cases ups with
    | none =>
      simp only [Option.isNone_none, if_true]
      rw [kong.model_UpdateOrCreateUpstream]
      rcases h2 : kong.upstreamModel.UpdateOrCreateUpstream u st1 with ⟨r2, st2⟩
      cases r2 with
      | some err => rfl
      | none =>
        simp only []
        rw [kong.model_ListActiveTargets]
        rcases h3 : kong.upstreamModel.ListActiveTargets u st2 with ⟨r3, st3⟩
        cases r3 <;> rfl
    | some v =>
      simp only [Option.isNone_some, Bool.false_eq_true, if_false]
      rw [kong.model_ListActiveTargets]
      rcases h3 : kong.upstreamModel.ListActiveTargets u st1 with ⟨r3, st3⟩
      cases r3 <;> rfl

theorem main.synchronizeUpstreams_body_model (u : String) (d : List String)
    (g : kong.Gateway) (st : kong.UpstreamState) :
    main.synchronizeUpstreams.body kong.model u d (Function.update g u st)
      = ((main.synchronizeUpstreams.body kong.upstreamModel u d st).1,
         Function.update g u (main.synchronizeUpstreams.body kong.upstreamModel u d st).2) := by
  unfold main.synchronizeUpstreams.body
  rw [main.getUpstreamConfigurationFromKong_model]
  rcases h : main.getUpstreamConfigurationFromKong kong.upstreamModel u st with ⟨r, st1⟩
  cases r with
  | error err => rfl
  | ok config =>
    simp only []
    rw [main.unRegisterUpstreamTargets_model]
    rcases h2 : main.unRegisterUpstreamTargets kong.upstreamModel u
      (toolkit.Diff (main.UpstreamConfig.index config u) d) st1 with ⟨r2, st2⟩
    cases r2 with
    | some err => rfl
    | none =>
      simp only []
      rw [main.registerUpstreamTargets_model]
      rcases h3 : main.registerUpstreamTargets kong.upstreamModel u
        (toolkit.Diff d (main.UpstreamConfig.index config u)) st2 with ⟨r3, st3⟩
      cases r3 <;> rfl

/-- In the gateway model, processing an upstream reads and writes the state of that
upstream only. -/
theorem main.synchronizeUpstreams_body_onUpstream (u : String) (d : List String)
    (g : kong.Gateway) :
    main.synchronizeUpstreams.body kong.model u d g
      = ((main.synchronizeUpstreams.body kong.upstreamModel u d (g u)).1,
         Function.update g u (main.synchronizeUpstreams.body kong.upstreamModel u d (g u)).2) := by
  have h := main.synchronizeUpstreams_body_model u d g (g u)
  rwa [Function.update_eq_self] at h

/-! ## Effect of the successful requests on one upstream of the gateway model -/

theorem kong.upstreamModel_RetrieveUpstream_ok (u : String) (st st1 : kong.UpstreamState)
    (ups : Option kong.UpstreamResponse)
    (h : kong.upstreamModel.RetrieveUpstream u st = (.ok ups, st1)) :
    st1.targets = st.targets ∧ st1.present = st.present ∧ st1.faults = st.faults.tail
      ∧ (ups.isNone = !st.present) := by
  simp only [kong.upstreamModel, kong.UpstreamState.receive] at h
  split_ifs at h <;> cases h
  all_goals simp_all

theorem kong.upstreamModel_UpdateOrCreateUpstream_none (u : String)
    (st st1 : kong.UpstreamState)
    (h : kong.upstreamModel.UpdateOrCreateUpstream u st = (none, st1)) :
    st1.targets = st.targets ∧ st1.present = true ∧ st1.faults = st.faults.tail := by
  simp only [kong.upstreamModel, kong.UpstreamState.receive] at h
  split_ifs at h <;> cases h
  all_goals simp_all

theorem kong.upstreamModel_ListActiveTargets_ok (u : String) (st st1 : kong.UpstreamState)
    (r : kong.TargetListResponse)
    (h : kong.upstreamModel.ListActiveTargets u st = (.ok r, st1)) :
    r.Data = st.targets ∧ st1.targets = st.targets ∧ st1.present = st.present
      ∧ st1.faults = st.faults.tail := by
  simp only [kong.upstreamModel, kong.UpstreamState.receive] at h
  split_ifs at h <;> cases h
  all_goals simp_all

theorem kong.upstreamModel_AddTarget_ok (u target : String) (weight : Nat)
    (st st1 : kong.UpstreamState) (tgt : kong.TargetResponse)
    (h : kong.upstreamModel.AddTarget u target weight st = (.ok tgt, st1)) :
    st1.targets = st.targets ++ [tgt] ∧ tgt.Target = target ∧ st1.present = st.present
      ∧ st1.faults = st.faults.tail := by
  simp only [kong.upstreamModel, kong.UpstreamState.receive] at h
  split_ifs at h <;> cases h
  all_goals simp_all

theorem kong.upstreamModel_DeleteTarget_none (u targetID : String)
    (st st1 : kong.UpstreamState)
    (h : kong.upstreamModel.DeleteTarget u targetID st = (none, st1)) :
    st1.targets = st.targets.filter (fun t => t.ID != targetID) ∧ st1.present = st.present
      ∧ st1.faults = st.faults.tail := by
  simp only [kong.upstreamModel, kong.UpstreamState.receive] at h
  split_ifs at h <;> cases h
  all_goals simp_all

/-! ## Without faults every request for an existing upstream succeeds -/

theorem kong.upstreamModel_RetrieveUpstream_of_no_faults (u : String) (st : kong.UpstreamState)
    (hf : st.faults = []) :
    ∃ ups, (kong.upstreamModel.RetrieveUpstream u st).1 = .ok ups := by
  simp only [kong.upstreamModel, kong.UpstreamState.receive, hf]
  by_cases hp : st.present = true <;> simp [hp]

theorem kong.upstreamModel_UpdateOrCreateUpstream_of_no_faults (u : String)
    (st : kong.UpstreamState) (hf : st.faults = []) :
    (kong.upstreamModel.UpdateOrCreateUpstream u st).1 = none := by
  simp [kong.upstreamModel, kong.UpstreamState.receive, hf]

theorem kong.upstreamModel_ListActiveTargets_of_no_faults (u : String)
    (st : kong.UpstreamState) (hf : st.faults = []) (hp : st.present = true) :
    ∃ r, (kong.upstreamModel.ListActiveTargets u st).1 = .ok r := by
  simp [kong.upstreamModel, kong.UpstreamState.receive, hf, hp]

theorem kong.upstreamModel_AddTarget_of_no_faults (u target : String) (weight : Nat)
    (st : kong.UpstreamState) (hf : st.faults = []) (hp : st.present = true) :
    ∃ tgt, (kong.upstreamModel.AddTarget u target weight st).1 = .ok tgt := by
  simp [kong.upstreamModel, kong.UpstreamState.receive, hf, hp]

theorem kong.upstreamModel_DeleteTarget_of_no_faults (u targetID : String)
    (st : kong.UpstreamState) (hf : st.faults = []) :
    (kong.upstreamModel.DeleteTarget u targetID st).1 = none := by
  simp [kong.upstreamModel, kong.UpstreamState.receive, hf]

/-! ## Effect of a successful synchronization on one upstream of the gateway model -/

theorem main.index_foldl_set (u : String) (data : List kong.TargetResponse)
    (config : main.UpstreamConfig) :
    main.UpstreamConfig.index (data.foldl (fun config target =>
        GoMap.set config u (main.UpstreamConfig.index config u ++ [target.Target])) config) u
      = main.UpstreamConfig.index config u ++ data.map (fun t => t.Target) := by
  induction data generalizing config with
  | nil => simp
  | cons t rest ih =>
    rw [List.foldl_cons, ih]
    simp [main.UpstreamConfig.index, GoMap.lookup_set]

theorem main.unRegisterUpstreamTargets_inner_none (u target : String)
    (data : List kong.TargetResponse) (st st1 : kong.UpstreamState)
    (h : main.unRegisterUpstreamTargets.inner kong.upstreamModel u target data st = (none, st1)) :
    st1.present = st.present ∧ (st.faults = [] → st1.faults = [])
      ∧ ∀ t, t ∈ st1.targets ↔
          t ∈ st.targets ∧ ∀ e ∈ data, e.Target = target → e.ID ≠ t.ID := by
  induction data generalizing st with
  | nil =>
    simp only [main.unRegisterUpstreamTargets.inner, Prod.mk.injEq, true_and] at h
    subst h
    simp
  | cons tgt rest ih =>
    unfold main.unRegisterUpstreamTargets.inner at h
    by_cases hm : (target == tgt.Target) = true
    · rw [if_pos hm] at h
      rcases hd : kong.upstreamModel.DeleteTarget u tgt.ID st with ⟨r, st2⟩
      rw [hd] at h
      cases r with
      | some err => simp at h
      | none =>
        simp only [] at h
        obtain ⟨hd1, hd2, hd3⟩ := kong.upstreamModel_DeleteTarget_none u tgt.ID st st2 hd
        obtain ⟨ip, ifl, it⟩ := ih st2 h
        refine ⟨by rw [ip, hd2], ?_, ?_⟩
        · intro hf
          exact ifl (by rw [hd3, hf]; rfl)
        · intro t
          have hm' : target = tgt.Target := by simpa using hm
          rw [it, hd1]
          simp only [List.mem_filter, bne_iff_ne, ne_eq, List.mem_cons, forall_eq_or_imp]
          constructor
          · rintro ⟨⟨h1, h2⟩, h3⟩
            exact ⟨h1, fun _ e => h2 e.symm, h3⟩
          · rintro ⟨h1, h2, h3⟩
            exact ⟨⟨h1, fun e => h2 hm'.symm e.symm⟩, h3⟩
    · rw [if_neg hm] at h
      obtain ⟨ip, ifl, it⟩ := ih st h
      refine ⟨ip, ifl, ?_⟩
      intro t
      have hm' : ¬ tgt.Target = target := by
        intro e; apply hm; simp [e]
      rw [it]
      simp [hm']

theorem main.unRegisterUpstreamTargets_outer_none (u : String)
    (data : List kong.TargetResponse) (targets : List String) (st st1 : kong.UpstreamState)
    (h : main.unRegisterUpstreamTargets.outer kong.upstreamModel u data targets st
      = (none, st1)) :
    st1.present = st.present ∧ (st.faults = [] → st1.faults = [])
      ∧ ∀ t, t ∈ st1.targets ↔
          t ∈ st.targets ∧ ∀ e ∈ data, e.Target ∈ targets → e.ID ≠ t.ID := by
  induction targets generalizing st with
  | nil =>
    simp only [main.unRegisterUpstreamTargets.outer, Prod.mk.injEq, true_and] at h
    subst h
    simp
  | cons target rest ih =>
    unfold main.unRegisterUpstreamTargets.outer at h
    rcases hi : main.unRegisterUpstreamTargets.inner kong.upstreamModel u target data st
      with ⟨r, st2⟩
    rw [hi] at h
    cases r with
    | some err => simp at h
    | none =>
      simp only [] at h
      obtain ⟨hp, hf, ht⟩ := main.unRegisterUpstreamTargets_inner_none u target data st st2 hi
      obtain ⟨ip, ifl, it⟩ := ih st2 h
      refine ⟨by rw [ip, hp], fun hf0 => ifl (hf hf0), ?_⟩
      intro t
      rw [it, ht]
      simp only [List.mem_cons]
      constructor
      · rintro ⟨⟨h1, h2⟩, h3⟩
        refine ⟨h1, ?_⟩
        intro e he hmem
        rcases hmem with hmem | hmem
        · exact h2 e he hmem
        · exact h3 e he hmem
      · rintro ⟨h1, h2⟩
        exact ⟨⟨h1, fun e he hmem => h2 e he (Or.inl hmem)⟩,
          fun e he hmem => h2 e he (Or.inr hmem)⟩

theorem main.unRegisterUpstreamTargets_none (u : String) (targets : List String)
    (st st1 : kong.UpstreamState)
    (h : main.unRegisterUpstreamTargets kong.upstreamModel u targets st = (none, st1)) :
    st1.present = st.present ∧ (st.faults = [] → st1.faults = [])
      ∧ ∀ t, t ∈ st1.targets ↔
          t ∈ st.targets ∧ ∀ e ∈ st.targets, e.Target ∈ targets → e.ID ≠ t.ID := by
  unfold main.unRegisterUpstreamTargets at h
  rcases hl : kong.upstreamModel.ListActiveTargets u st with ⟨r, st2⟩
  rw [hl] at h
  cases r with
  | error err => simp at h
  | ok active =>
    simp only [] at h
    obtain ⟨hd, ht, hp, hf⟩ := kong.upstreamModel_ListActiveTargets_ok u st st2 active hl
    obtain ⟨ip, ifl, it⟩ := main.unRegisterUpstreamTargets_outer_none u _ targets st2 st1 h
    refine ⟨by rw [ip, hp], fun hf0 => ifl (by rw [hf, hf0]; rfl), ?_⟩
    intro t
    rw [it, ht, hd]

theorem main.registerUpstreamTargets_none (u : String) (targets : List String)
    (st st1 : kong.UpstreamState)
    (h : main.registerUpstreamTargets kong.upstreamModel u targets st = (none, st1)) :
    st1.present = st.present ∧ (st.faults = [] → st1.faults = [])
      ∧ st1.targets.map (fun t => t.Target) = st.targets.map (fun t => t.Target) ++ targets := by
  induction targets generalizing st with
  | nil =>
    simp only [main.registerUpstreamTargets, Prod.mk.injEq, true_and] at h
    subst h
    simp
  | cons target rest ih =>
    unfold main.registerUpstreamTargets at h
    rcases ha : kong.upstreamModel.AddTarget u target 100 st with ⟨r, st2⟩
    rw [ha] at h
    cases r with
    | error err => simp at h
    | ok tgt =>
      simp only [] at h
      obtain ⟨ht, htt, hp, hf⟩ := kong.upstreamModel_AddTarget_ok u target 100 st st2 tgt ha
      obtain ⟨ip, ifl, it⟩ := ih st2 h
      refine ⟨by rw [ip, hp], fun hf0 => ifl (by rw [hf, hf0]; rfl), ?_⟩
      rw [it, ht]
      simp [htt]

theorem main.getUpstreamConfigurationFromKong_ok (u : String) (st st1 : kong.UpstreamState)
    (config : main.UpstreamConfig)
    (h : main.getUpstreamConfigurationFromKong kong.upstreamModel u st = (.ok config, st1)) :
    st1.present = true ∧ (st.faults = [] → st1.faults = []) ∧ st1.targets = st.targets
      ∧ main.UpstreamConfig.index config u = st.targets.map (fun t => t.Target) := by
  unfold main.getUpstreamConfigurationFromKong at h
  rcases hr : kong.upstreamModel.RetrieveUpstream u st with ⟨r, st2⟩
  rw [hr] at h
  cases r with
  | error err => simp at h
  | ok ups =>
    simp only [] at h
    obtain ⟨ht2, hp2, hf2, hups⟩ := kong.upstreamModel_RetrieveUpstream_ok u st st2 ups hr
    have key : ∀ st3 : kong.UpstreamState, st3.targets = st.targets →
        (st.faults = [] → st3.faults = []) →
        ∀ active, kong.upstreamModel.ListActiveTargets u st3 = (.ok active, st1) →
        active.Data.foldl (fun config (target : kong.TargetResponse) =>
              GoMap.set config u (main.UpstreamConfig.index config u ++ [target.Target]))
              [] = config →
        st1.present = true ∧ (st.faults = [] → st1.faults = []) ∧ st1.targets = st.targets
          ∧ main.UpstreamConfig.index config u = st.targets.map (fun t => t.Target) := by
      intro st3 ht3 hf3 active hl hc
      obtain ⟨hd, ht, hp, hf⟩ := kong.upstreamModel_ListActiveTargets_ok u st3 st1 active hl
      have hpres : st3.present = true := by
        simp only [kong.upstreamModel, kong.UpstreamState.receive] at hl
        split_ifs at hl with h1 h2
        · cases hl
        · simpa using h2
        · cases hl
      refine ⟨by rw [hp, hpres], fun hf0 => by rw [hf, hf3 hf0]; rfl, by rw [ht, ht3], ?_⟩
      rw [← hc, main.index_foldl_set, hd, ht3]
      simp [main.UpstreamConfig.index, GoMap.lookup, List.lookup]
    cases ups with
    | none =>
      simp only [Option.isNone_none, if_true] at h
      rcases hc : kong.upstreamModel.UpdateOrCreateUpstream u st2 with ⟨r3, st3⟩
      rw [hc] at h
      cases r3 with
      | some err => simp at h
      | none =>
        simp only [] at h
        obtain ⟨ht3, hp3, hf3⟩ := kong.upstreamModel_UpdateOrCreateUpstream_none u st2 st3 hc
        rcases hl : kong.upstreamModel.ListActiveTargets u st3 with ⟨r4, st4⟩
        rw [hl] at h
        cases r4 with
        | error err => simp at h
        | ok active =>
          simp only [Prod.mk.injEq, Except.ok.injEq] at h
          obtain ⟨hc4, hs4⟩ := h
          subst hs4
          exact key st3 (by rw [ht3, ht2]) (fun hf0 => by rw [hf3, hf2, hf0]; rfl) active hl hc4
    | some v =>
      simp only [Option.isNone_some, Bool.false_eq_true, if_false] at h
      rcases hl : kong.upstreamModel.ListActiveTargets u st2 with ⟨r4, st4⟩
      rw [hl] at h
      cases r4 with
      | error err => simp at h
      | ok active =>
        simp only [Prod.mk.injEq, Except.ok.injEq] at h
        obtain ⟨hc4, hs4⟩ := h
        subst hs4
        exact key st2 ht2 (fun hf0 => by rw [hf2, hf0]; rfl) active hl hc4

/-! ## Without faults the synchronization of an upstream succeeds -/

theorem main.unRegisterUpstreamTargets_inner_of_no_faults (u target : String)
    (data : List kong.TargetResponse) (st : kong.UpstreamState) (hf : st.faults = []) :
    (main.unRegisterUpstreamTargets.inner kong.upstreamModel u target data st).1 = none := by
  induction data generalizing st with
  | nil => rfl
  | cons tgt rest ih =>
    unfold main.unRegisterUpstreamTargets.inner
    by_cases hm : (target == tgt.Target) = true
    · rw [if_pos hm]
      have h1 := kong.upstreamModel_DeleteTarget_of_no_faults u tgt.ID st hf
      rcases hd : kong.upstreamModel.DeleteTarget u tgt.ID st with ⟨r, st2⟩
      rw [hd] at h1
      simp only [] at h1
      subst h1
      obtain ⟨_, _, hf2⟩ := kong.upstreamModel_DeleteTarget_none u tgt.ID st st2 hd
      exact ih st2 (by rw [hf2, hf]; rfl)
    · rw [if_neg hm]
      exact ih st hf

theorem main.unRegisterUpstreamTargets_outer_of_no_faults (u : String)
    (data : List kong.TargetResponse) (targets : List String) (st : kong.UpstreamState)
    (hf : st.faults = []) :
    (main.unRegisterUpstreamTargets.outer kong.upstreamModel u data targets st).1 = none := by
  induction targets generalizing st with
  | nil => rfl
  | cons target rest ih =>
    unfold main.unRegisterUpstreamTargets.outer
    have h1 := main.unRegisterUpstreamTargets_inner_of_no_faults u target data st hf
    rcases hi : main.unRegisterUpstreamTargets.inner kong.upstreamModel u target data st
      with ⟨r, st2⟩
    rw [hi] at h1
    simp only [] at h1
    subst h1
    obtain ⟨_, hf2, _⟩ := main.unRegisterUpstreamTargets_inner_none u target data st st2 hi
    exact ih st2 (hf2 hf)

theorem main.unRegisterUpstreamTargets_of_no_faults (u : String) (targets : List String)
    (st : kong.UpstreamState) (hf : st.faults = []) (hp : st.present = true) :
    (main.unRegisterUpstreamTargets kong.upstreamModel u targets st).1 = none := by
  unfold main.unRegisterUpstreamTargets
  obtain ⟨r, h1⟩ := kong.upstreamModel_ListActiveTargets_of_no_faults u st hf hp
  rcases hl : kong.upstreamModel.ListActiveTargets u st with ⟨r2, st2⟩
  rw [hl] at h1
  simp only [] at h1
  subst h1
  obtain ⟨_, _, _, hf2⟩ := kong.upstreamModel_ListActiveTargets_ok u st st2 r hl
  exact main.unRegisterUpstreamTargets_outer_of_no_faults u _ targets st2 (by rw [hf2, hf]; rfl)

theorem main.registerUpstreamTargets_of_no_faults (u : String) (targets : List String)
    (st : kong.UpstreamState) (hf : st.faults = []) (hp : st.present = true) :
    (main.registerUpstreamTargets kong.upstreamModel u targets st).1 = none := by
  induction targets generalizing st with
  | nil => rfl
  | cons target rest ih =>
    unfold main.registerUpstreamTargets
    obtain ⟨tgt, h1⟩ := kong.upstreamModel_AddTarget_of_no_faults u target 100 st hf hp
    rcases ha : kong.upstreamModel.AddTarget u target 100 st with ⟨r, st2⟩
    rw [ha] at h1
    simp only [] at h1
    subst h1
    obtain ⟨_, _, hp2, hf2⟩ := kong.upstreamModel_AddTarget_ok u target 100 st st2 tgt ha
    exact ih st2 (by rw [hf2, hf]; rfl) (by rw [hp2, hp])

theorem main.getUpstreamConfigurationFromKong_of_no_faults (u : String)
    (st : kong.UpstreamState) (hf : st.faults = []) :
    ∃ config, (main.getUpstreamConfigurationFromKong kong.upstreamModel u st).1 = .ok config := by
  unfold main.getUpstreamConfigurationFromKong
  obtain ⟨ups, h1⟩ := kong.upstreamModel_RetrieveUpstream_of_no_faults u st hf
  rcases hr : kong.upstreamModel.RetrieveUpstream u st with ⟨r, st2⟩
  rw [hr] at h1
  simp only [] at h1
  subst h1
  obtain ⟨_, hp2, hf2, hups⟩ := kong.upstreamModel_RetrieveUpstream_ok u st st2 ups hr
  have hf2' : st2.faults = [] := by rw [hf2, hf]; rfl
  cases ups with
  | none =>
    simp only [Option.isNone_none, if_true]
    have h3 := kong.upstreamModel_UpdateOrCreateUpstream_of_no_faults u st2 hf2'
    rcases hc : kong.upstreamModel.UpdateOrCreateUpstream u st2 with ⟨r3, st3⟩
    rw [hc] at h3
    simp only [] at h3
    subst h3
    obtain ⟨_, hp3, hf3⟩ := kong.upstreamModel_UpdateOrCreateUpstream_none u st2 st3 hc
    simp only []
    obtain ⟨r4, h4⟩ := kong.upstreamModel_ListActiveTargets_of_no_faults u st3
      (by rw [hf3, hf2']; rfl) hp3
    rcases hl : kong.upstreamModel.ListActiveTargets u st3 with ⟨r5, st5⟩
    rw [hl] at h4
    simp only [] at h4
    subst h4
    exact ⟨_, rfl⟩
  | some v =>
    simp only [Option.isNone_some, Bool.false_eq_true, if_false]
    have hp' : st2.present = true := by
      rw [hp2]
      simpa using hups
    obtain ⟨r4, h4⟩ := kong.upstreamModel_ListActiveTargets_of_no_faults u st2 hf2' hp'
    rcases hl : kong.upstreamModel.ListActiveTargets u st2 with ⟨r5, st5⟩
    rw [hl] at h4
    simp only [] at h4
    subst h4
    exact ⟨_, rfl⟩

/-! ## One pass over one upstream of the gateway model -/

theorem toolkit.Diff_eq_nil (a b : List String) (h : ∀ x ∈ a, x ∈ b) : toolkit.Diff a b = [] := by
  rw [toolkit.Diff_eq_filter, List.filter_eq_nil_iff]
  intro x hx
  simpa using h x hx

theorem main.synchronizeUpstreams_body_synchronized (u : String) (d created removed : List String)
    (st st1 : kong.UpstreamState)
    (h : main.synchronizeUpstreams.body kong.upstreamModel u d st
      = (.synchronized created removed, st1)) :
    created = toolkit.Diff d (st.targets.map (fun t => t.Target))
    ∧ removed = toolkit.Diff (st.targets.map (fun t => t.Target)) d
    ∧ (st.faults = [] → st1.faults = [])
    ∧ st1.present = true
    ∧ ((st.targets.map (fun t => t.ID)).Nodup →
        ∀ x, x ∈ st1.targets.map (fun t => t.Target) ↔ x ∈ d) := by
  unfold main.synchronizeUpstreams.body at h
  rcases hk : main.getUpstreamConfigurationFromKong kong.upstreamModel u st with ⟨r, st2⟩
  rw [hk] at h
  cases r with
  | error err => simp at h
  | ok config =>
    simp only [] at h
    obtain ⟨hp2, hf2, ht2, hidx⟩ := main.getUpstreamConfigurationFromKong_ok u st st2 config hk
    rw [hidx] at h
    rcases hu : main.unRegisterUpstreamTargets kong.upstreamModel u
      (toolkit.Diff (st.targets.map (fun t => t.Target)) d) st2 with ⟨r3, st3⟩
    rw [hu] at h
    cases r3 with
    | some err => simp at h
    | none =>
      simp only [] at h
      obtain ⟨hp3, hf3, ht3⟩ := main.unRegisterUpstreamTargets_none u _ st2 st3 hu
      rcases hr : main.registerUpstreamTargets kong.upstreamModel u
        (toolkit.Diff d (st.targets.map (fun t => t.Target))) st3 with ⟨r4, st4⟩
      rw [hr] at h
      cases r4 with
      | some err => simp at h
      | none =>
        simp only [Prod.mk.injEq, main.SyncLog.synchronized.injEq] at h
        obtain ⟨⟨hc, hrm⟩, hs⟩ := h
        subst hs
        obtain ⟨hp4, hf4, ht4⟩ := main.registerUpstreamTargets_none u _ st3 st4 hr
        refine ⟨hc.symm, hrm.symm, fun hf0 => hf4 (hf3 (hf2 hf0)), by rw [hp4, hp3, hp2], ?_⟩
        intro hnodup x
        rw [ht4, List.mem_append, toolkit.mem_Diff, List.mem_map]
        constructor
        · rintro (⟨t, ht, rfl⟩ | ⟨hx, _⟩)
          · rw [ht3, ht2] at ht
            obtain ⟨hmem, hkeep⟩ := ht
            by_contra hnd
            exact hkeep t hmem ((toolkit.mem_Diff _ _ _).2
              ⟨List.mem_map.2 ⟨t, hmem, rfl⟩, hnd⟩) rfl
          · exact hx
        · intro hx
          by_cases hxk : x ∈ st.targets.map (fun t => t.Target)
          · left
            obtain ⟨t, hmem, rfl⟩ := List.mem_map.1 hxk
            refine ⟨t, ?_, rfl⟩
            rw [ht3, ht2]
            refine ⟨hmem, ?_⟩
            intro e he hdiff hid
            have heq : e = t := List.inj_on_of_nodup_map hnodup he hmem hid
            subst heq
            exact ((toolkit.mem_Diff _ _ _).1 hdiff).2 hx
          · right
            exact ⟨hx, hxk⟩

theorem main.synchronizeUpstreams_body_of_no_faults (u : String) (d : List String)
    (st : kong.UpstreamState) (hf : st.faults = []) :
    ∃ created removed,
      (main.synchronizeUpstreams.body kong.upstreamModel u d st).1
        = .synchronized created removed := by
  unfold main.synchronizeUpstreams.body
  obtain ⟨config, h1⟩ := main.getUpstreamConfigurationFromKong_of_no_faults u st hf
  rcases hk : main.getUpstreamConfigurationFromKong kong.upstreamModel u st with ⟨r, st2⟩
  rw [hk] at h1
  simp only [] at h1
  subst h1
  obtain ⟨hp2, hf2, _, _⟩ := main.getUpstreamConfigurationFromKong_ok u st st2 config hk
  simp only []
  have h3 := main.unRegisterUpstreamTargets_of_no_faults u
    (toolkit.Diff (main.UpstreamConfig.index config u) d) st2 (hf2 hf) hp2
  rcases hu : main.unRegisterUpstreamTargets kong.upstreamModel u
    (toolkit.Diff (main.UpstreamConfig.index config u) d) st2 with ⟨r3, st3⟩
  rw [hu] at h3
  simp only [] at h3
  subst h3
  obtain ⟨hp3, hf3, _⟩ := main.unRegisterUpstreamTargets_none u _ st2 st3 hu
  simp only []
  have h4 := main.registerUpstreamTargets_of_no_faults u
    (toolkit.Diff d (main.UpstreamConfig.index config u)) st3 (hf3 (hf2 hf)) (by rw [hp3, hp2])
  rcases hr : main.registerUpstreamTargets kong.upstreamModel u
    (toolkit.Diff d (main.UpstreamConfig.index config u)) st3 with ⟨r4, st4⟩
  rw [hr] at h4
  simp only [] at h4
  subst h4
  exact ⟨_, _, rfl⟩

/-- C3: in the gateway model, for an upstream whose active entries have distinct ids,
with `k` the list of its active targets and `d` the desired list: when the processing of
the upstream by `synchronizeUpstreams` ends with the entry `synchronized` (every request
succeeded), the targets removed are `Diff k d`, the targets created are `Diff d k`, the
target strings then registered for the upstream are exactly the strings of `d`, and the
next pass over the same `d` computes an empty `Diff` in both directions. When no request
fails, the pass does end with `synchronized`, and so does the next one, with nothing
created and nothing removed. -/
theorem C3_successful_pass_reaches_desired (g : kong.Gateway) (upstream : String)
    (d : List String) (hids : ((g upstream).targets.map (fun t => t.ID)).Nodup) :
    ((g upstream).faults = [] →
        ∃ g1 g2, main.synchronizeUpstreams.body kong.model upstream d g
            = (.synchronized (toolkit.Diff d ((g upstream).targets.map (fun t => t.Target)))
                (toolkit.Diff ((g upstream).targets.map (fun t => t.Target)) d), g1)
          ∧ main.synchronizeUpstreams.body kong.model upstream d g1
            = (.synchronized [] [], g2))
    ∧ ∀ created removed g1,
        main.synchronizeUpstreams.body kong.model upstream d g
          = (.synchronized created removed, g1) →
        created = toolkit.Diff d ((g upstream).targets.map (fun t => t.Target))
        ∧ removed = toolkit.Diff ((g upstream).targets.map (fun t => t.Target)) d
        ∧ (∀ x, x ∈ (g1 upstream).targets.map (fun t => t.Target) ↔ x ∈ d)
        ∧ ∀ config g2,
            main.getUpstreamConfigurationFromKong kong.model upstream g1 = (.ok config, g2) →
            toolkit.Diff (main.UpstreamConfig.index config upstream) d = []
            ∧ toolkit.Diff d (main.UpstreamConfig.index config upstream) = [] := by
  constructor
  · intro hf
    obtain ⟨created, removed, h1⟩ :=
      main.synchronizeUpstreams_body_of_no_faults upstream d (g upstream) hf
    have hb : main.synchronizeUpstreams.body kong.upstreamModel upstream d (g upstream)
        = (.synchronized created removed,
            (main.synchronizeUpstreams.body kong.upstreamModel upstream d (g upstream)).2) :=
      Prod.ext h1 rfl
    obtain ⟨hc, hr, hf1, _, hset⟩ :=
      main.synchronizeUpstreams_body_synchronized upstream d created removed _ _ hb
    obtain ⟨created2, removed2, h2⟩ := main.synchronizeUpstreams_body_of_no_faults upstream d
      (main.synchronizeUpstreams.body kong.upstreamModel upstream d (g upstream)).2 (hf1 hf)
    have hb2 : main.synchronizeUpstreams.body kong.upstreamModel upstream d
        (main.synchronizeUpstreams.body kong.upstreamModel upstream d (g upstream)).2
        = (.synchronized created2 removed2,
            (main.synchronizeUpstreams.body kong.upstreamModel upstream d
              (main.synchronizeUpstreams.body kong.upstreamModel upstream d (g upstream)).2).2) :=
      Prod.ext h2 rfl
    obtain ⟨hc2, hr2, _, _, _⟩ :=
      main.synchronizeUpstreams_body_synchronized upstream d created2 removed2 _ _ hb2
    have hc2' : created2 = [] := by
      rw [hc2]
      exact toolkit.Diff_eq_nil _ _ (fun x hx => ((hset hids) x).2 hx)
    have hr2' : removed2 = [] := by
      rw [hr2]
      exact toolkit.Diff_eq_nil _ _ (fun x hx => ((hset hids) x).1 hx)
    refine ⟨Function.update g upstream
        (main.synchronizeUpstreams.body kong.upstreamModel upstream d (g upstream)).2,
      Function.update g upstream
        (main.synchronizeUpstreams.body kong.upstreamModel upstream d
          (main.synchronizeUpstreams.body kong.upstreamModel upstream d (g upstream)).2).2,
      ?_, ?_⟩
    · rw [main.synchronizeUpstreams_body_onUpstream, h1, hc, hr]
    · rw [main.synchronizeUpstreams_body_model, h2, hc2', hr2']
  · intro created removed g1 h
    rw [main.synchronizeUpstreams_body_onUpstream] at h
    simp only [Prod.mk.injEq] at h
    obtain ⟨h1, h2⟩ := h
    have hb : main.synchronizeUpstreams.body kong.upstreamModel upstream d (g upstream)
        = (.synchronized created removed,
            (main.synchronizeUpstreams.body kong.upstreamModel upstream d (g upstream)).2) :=
      Prod.ext h1 rfl
    obtain ⟨hc, hr, _, _, hset⟩ :=
      main.synchronizeUpstreams_body_synchronized upstream d created removed _ _ hb
    subst h2
    refine ⟨hc, hr, ?_, ?_⟩
    · intro x
      rw [Function.update_same]
      exact hset hids x
    · intro config g2 hk
      rw [main.getUpstreamConfigurationFromKong_model] at hk
      simp only [Prod.mk.injEq] at hk
      obtain ⟨hk1, _⟩ := hk
      obtain ⟨_, _, ht, hidx⟩ := main.getUpstreamConfigurationFromKong_ok upstream _ _ config
        (Prod.ext hk1 rfl)
      rw [hidx]
      exact ⟨toolkit.Diff_eq_nil _ _ (fun x hx => ((hset hids) x).1 hx),
        toolkit.Diff_eq_nil _ _ (fun x hx => ((hset hids) x).2 hx)⟩

/-- C3 (witness): the upstream `web` has the active targets `10.0.0.1:80` and
`10.0.0.2:80`, the desired targets are `10.0.0.2:80` and `10.0.0.3:80`: the pass removes
the first, creates the last, and the next pass creates and removes nothing. -/
theorem C3_witness :
    ((sample.twoTargetsGateway "web").targets.map (fun t => t.ID)).Nodup
    ∧ ∃ g1 g2, main.synchronizeUpstreams.body kong.model "web" sample.desired
          sample.twoTargetsGateway = (.synchronized ["10.0.0.3:80"] ["10.0.0.1:80"], g1)
        ∧ main.synchronizeUpstreams.body kong.model "web" sample.desired g1
          = (.synchronized [] [], g2) :=
  ⟨by decide,
   (C3_successful_pass_reaches_desired sample.twoTargetsGateway "web" sample.desired
      (by decide)).1 rfl⟩

/-! ## Requests issued by the synchronization, for any gateway -/

theorem main.registerUpstreamTargets_trace {σ : Type} (K : kong.Client σ) (u : String)
    (targets : List String) (s : σ × List kong.Call) :
    ∃ l, (main.registerUpstreamTargets K.recording u targets s).2.2 = s.2 ++ l := by
  induction targets generalizing s with
  | nil => exact ⟨[], by simp [main.registerUpstreamTargets]⟩
  | cons target rest ih =>
    unfold main.registerUpstreamTargets
    have hc : (K.recording.AddTarget u target 100 s).2.2
        = s.2 ++ [kong.Call.AddTarget u target 100] := rfl
    rcases h : K.recording.AddTarget u target 100 s with ⟨r, s1⟩
    rw [h] at hc
    cases r with
    | error err => exact ⟨_, hc⟩
    | ok tgt =>
      obtain ⟨l, hl⟩ := ih s1
      exact ⟨kong.Call.AddTarget u target 100 :: l, by rw [hl, hc]; simp⟩

theorem main.unRegisterUpstreamTargets_inner_trace {σ : Type} (K : kong.Client σ)
    (u target : String) (data : List kong.TargetResponse) (s : σ × List kong.Call) :
    ∃ l, (main.unRegisterUpstreamTargets.inner K.recording u target data s).2.2 = s.2 ++ l := by
  induction data generalizing s with
  | nil => exact ⟨[], by simp [main.unRegisterUpstreamTargets.inner]⟩
  | cons tgt rest ih =>
    unfold main.unRegisterUpstreamTargets.inner
    by_cases hm : (target == tgt.Target) = true
    · rw [if_pos hm]
      have hc : (K.recording.DeleteTarget u tgt.ID s).2.2
          = s.2 ++ [kong.Call.DeleteTarget u tgt.ID] := rfl
      rcases h : K.recording.DeleteTarget u tgt.ID s with ⟨r, s1⟩
      rw [h] at hc
      cases r with
      | some err => exact ⟨_, hc⟩
      | none =>
        obtain ⟨l, hl⟩ := ih s1
        exact ⟨kong.Call.DeleteTarget u tgt.ID :: l, by rw [hl, hc]; simp⟩
    · rw [if_neg hm]
      exact ih s

theorem main.unRegisterUpstreamTargets_outer_trace {σ : Type} (K : kong.Client σ)
    (u : String) (data : List kong.TargetResponse) (targets : List String)
    (s : σ × List kong.Call) :
    ∃ l, (main.unRegisterUpstreamTargets.outer K.recording u data targets s).2.2 = s.2 ++ l := by
  induction targets generalizing s with
  | nil => exact ⟨[], by simp [main.unRegisterUpstreamTargets.outer]⟩
  | cons target rest ih =>
    unfold main.unRegisterUpstreamTargets.outer
    obtain ⟨l1, hl1⟩ := main.unRegisterUpstreamTargets_inner_trace K u target data s
    rcases h : main.unRegisterUpstreamTargets.inner K.recording u target data s with ⟨r, s1⟩
    rw [h] at hl1
    cases r with
    | some err => exact ⟨l1, hl1⟩
    | none =>
      obtain ⟨l, hl⟩ := ih s1
      exact ⟨l1 ++ l, by rw [hl, hl1]; simp⟩

theorem main.unRegisterUpstreamTargets_trace {σ : Type} (K : kong.Client σ) (u : String)
    (targets : List String) (s : σ × List kong.Call) :
    ∃ l, (main.unRegisterUpstreamTargets K.recording u targets s).2.2 = s.2 ++ l := by
  unfold main.unRegisterUpstreamTargets
  have hc : (K.recording.ListActiveTargets u s).2.2
      = s.2 ++ [kong.Call.ListActiveTargets u] := rfl
  rcases h : K.recording.ListActiveTargets u s with ⟨r, s1⟩
  rw [h] at hc
  cases r with
  | error err => exact ⟨_, hc⟩
  | ok active =>
    obtain ⟨l, hl⟩ := main.unRegisterUpstreamTargets_outer_trace K u active.Data targets s1
    exact ⟨kong.Call.ListActiveTargets u :: l, by rw [hl, hc]; simp⟩

theorem main.getUpstreamConfigurationFromKong_trace {σ : Type} (K : kong.Client σ)
    (u : String) (s : σ × List kong.Call) :
    ∃ l, (main.getUpstreamConfigurationFromKong K.recording u s).2.2
      = s.2 ++ kong.Call.RetrieveUpstream u :: l := by
  unfold main.getUpstreamConfigurationFromKong
  have hc : (K.recording.RetrieveUpstream u s).2.2
      = s.2 ++ [kong.Call.RetrieveUpstream u] := rfl
  rcases h : K.recording.RetrieveUpstream u s with ⟨r, s1⟩
  rw [h] at hc
  cases r with
  | error err => exact ⟨[], hc⟩
  | ok ups =>
    cases ups with
    | none =>
      simp only [Option.isNone_none, if_true]
      have hc2 : (K.recording.UpdateOrCreateUpstream u s1).2.2
          = s1.2 ++ [kong.Call.UpdateOrCreateUpstream u] := rfl
      rcases h2 : K.recording.UpdateOrCreateUpstream u s1 with ⟨r2, s2⟩
      rw [h2] at hc2
      cases r2 with
      | some err => exact ⟨[kong.Call.UpdateOrCreateUpstream u], by
          simp only [] at hc hc2 ⊢; rw [hc2, hc]; simp⟩
      | none =>
        simp only []
        have hc3 : (K.recording.ListActiveTargets u s2).2.2
            = s2.2 ++ [kong.Call.ListActiveTargets u] := rfl
        rcases h3 : K.recording.ListActiveTargets u s2 with ⟨r3, s3⟩
        rw [h3] at hc3
        cases r3 <;> exact ⟨[kong.Call.UpdateOrCreateUpstream u, kong.Call.ListActiveTargets u], by
          simp only [] at hc hc2 hc3 ⊢; rw [hc3, hc2, hc]; simp⟩
    | some v =>
      simp only [Option.isNone_some, Bool.false_eq_true, if_false]
      have hc3 : (K.recording.ListActiveTargets u s1).2.2
          = s1.2 ++ [kong.Call.ListActiveTargets u] := rfl
      rcases h3 : K.recording.ListActiveTargets u s1 with ⟨r3, s3⟩
      rw [h3] at hc3
      cases r3 <;> exact ⟨[kong.Call.ListActiveTargets u], by
        simp only [] at hc hc3 ⊢; rw [hc3, hc]; simp⟩

theorem main.synchronizeUpstreams_body_trace {σ : Type} (K : kong.Client σ) (u : String)
    (d : List String) (s : σ × List kong.Call) :
    ∃ l, (main.synchronizeUpstreams.body K.recording u d s).2.2
      = s.2 ++ kong.Call.RetrieveUpstream u :: l := by
  unfold main.synchronizeUpstreams.body
  obtain ⟨l1, hl1⟩ := main.getUpstreamConfigurationFromKong_trace K u s
  rcases h : main.getUpstreamConfigurationFromKong K.recording u s with ⟨r, s1⟩
  rw [h] at hl1
  cases r with
  | error err => exact ⟨l1, hl1⟩
  | ok config =>
    simp only []
    obtain ⟨l2, hl2⟩ := main.unRegisterUpstreamTargets_trace K u
      (toolkit.Diff (main.UpstreamConfig.index config u) d) s1
    rcases h2 : main.unRegisterUpstreamTargets K.recording u
      (toolkit.Diff (main.UpstreamConfig.index config u) d) s1 with ⟨r2, s2⟩
    rw [h2] at hl2
    cases r2 with
    | some err => exact ⟨l1 ++ l2, by simp only [] at hl1 hl2 ⊢; rw [hl2, hl1]; simp⟩
    | none =>
      simp only []
      obtain ⟨l3, hl3⟩ := main.registerUpstreamTargets_trace K u
        (toolkit.Diff d (main.UpstreamConfig.index config u)) s2
      rcases h3 : main.registerUpstreamTargets K.recording u
        (toolkit.Diff d (main.UpstreamConfig.index config u)) s2 with ⟨r3, s3⟩
      rw [h3] at hl3
      cases r3 <;> exact ⟨l1 ++ (l2 ++ l3), by
        simp only [] at hl1 hl2 hl3 ⊢; rw [hl3, hl2, hl1]; simp⟩

theorem main.synchronizeUpstreams_loop_cons {σ : Type} (K : kong.Client σ) (w : String)
    (d : List String) (rest : List (String × List String)) (s : σ) :
    main.synchronizeUpstreams.loop K ((w, d) :: rest) s
      = ((w, (main.synchronizeUpstreams.body K w d s).1)
          :: (main.synchronizeUpstreams.loop K rest (main.synchronizeUpstreams.body K w d s).2).1,
         (main.synchronizeUpstreams.loop K rest (main.synchronizeUpstreams.body K w d s).2).2) :=
  rfl

theorem main.synchronizeUpstreams_loop_trace {σ : Type} (K : kong.Client σ)
    (entries : List (String × List String)) (s : σ × List kong.Call) :
    ∃ l, (main.synchronizeUpstreams.loop K.recording entries s).2.2 = s.2 ++ l
      ∧ ∀ v ∈ entries.map Prod.fst, kong.Call.RetrieveUpstream v ∈ l := by
  induction entries generalizing s with
  | nil => exact ⟨[], by simp [main.synchronizeUpstreams.loop]⟩
  | cons e rest ih =>
    obtain ⟨w, d⟩ := e
    obtain ⟨l1, hl1⟩ := main.synchronizeUpstreams_body_trace K w d s
    obtain ⟨l, hl, hmem⟩ := ih (main.synchronizeUpstreams.body K.recording w d s).2
    rw [main.synchronizeUpstreams_loop_cons]
    refine ⟨kong.Call.RetrieveUpstream w :: l1 ++ l, ?_, ?_⟩
    · show (main.synchronizeUpstreams.loop K.recording rest
        (main.synchronizeUpstreams.body K.recording w d s).2).2.2 = _
      rw [hl, hl1]; simp
    · intro v hv
      simp only [List.map_cons, List.mem_cons] at hv
      rcases hv with hv | hv
      · subst hv; simp
      · have := hmem v hv
        simp [this]

theorem main.synchronizeUpstreams_loop_keys {σ : Type} (K : kong.Client σ)
    (entries : List (String × List String)) (s : σ) :
    (main.synchronizeUpstreams.loop K entries s).1.map Prod.fst = entries.map Prod.fst := by
  induction entries generalizing s with
  | nil => rfl
  | cons e rest ih =>
    obtain ⟨w, d⟩ := e
    rw [main.synchronizeUpstreams_loop_cons]
    simp only [List.map_cons]
    rw [ih]

/-! ## Independence of the upstreams in the gateway model -/

theorem main.synchronizeUpstreams_loop_independent (u : String)
    (entries : List (String × List String)) (g1 g2 : kong.Gateway)
    (hagree : ∀ v, v ≠ u → g1 v = g2 v) :
    (∀ v, v ≠ u → (main.synchronizeUpstreams.loop kong.model entries g1).2 v
        = (main.synchronizeUpstreams.loop kong.model
            (entries.filter (fun e => decide (e.1 ≠ u))) g2).2 v)
    ∧ (main.synchronizeUpstreams.loop kong.model entries g1).1.filter
          (fun e => decide (e.1 ≠ u))
        = (main.synchronizeUpstreams.loop kong.model
            (entries.filter (fun e => decide (e.1 ≠ u))) g2).1 := by
  induction entries generalizing g1 g2 with
  | nil => exact ⟨fun v hv => hagree v hv, rfl⟩
  | cons e rest ih =>
    obtain ⟨w, d⟩ := e
    by_cases hw : w = u
    · subst hw
      have hf : List.filter (fun e : String × List String => decide (e.1 ≠ w)) ((w, d) :: rest)
          = List.filter (fun e => decide (e.1 ≠ w)) rest := by
        simp [List.filter_cons]
      rw [hf, main.synchronizeUpstreams_loop_cons, main.synchronizeUpstreams_body_onUpstream]
      have hagree2 : ∀ v, v ≠ w →
          Function.update g1 w (main.synchronizeUpstreams.body kong.upstreamModel w d (g1 w)).2 v
            = g2 v := by
        intro v hv
        rw [Function.update_noteq hv]
        exact hagree v hv
      obtain ⟨ih1, ih2⟩ := ih _ g2 hagree2
      refine ⟨ih1, ?_⟩
      rw [← ih2]
      simp [List.filter_cons]
    · have hf : List.filter (fun e : String × List String => decide (e.1 ≠ u)) ((w, d) :: rest)
          = (w, d) :: List.filter (fun e => decide (e.1 ≠ u)) rest := by
        simp [List.filter_cons, hw]
      rw [hf, main.synchronizeUpstreams_loop_cons, main.synchronizeUpstreams_loop_cons,
        main.synchronizeUpstreams_body_onUpstream, main.synchronizeUpstreams_body_onUpstream,
        ← hagree w hw]
      have hagree2 : ∀ v, v ≠ u →
          Function.update g1 w (main.synchronizeUpstreams.body kong.upstreamModel w d (g1 w)).2 v
            = Function.update g2 w
                (main.synchronizeUpstreams.body kong.upstreamModel w d (g1 w)).2 v := by
        intro v hv
        by_cases hvw : v = w
        · subst hvw; simp
        · rw [Function.update_noteq hvw, Function.update_noteq hvw]
          exact hagree v hv
      obtain ⟨ih1, ih2⟩ := ih _ _ hagree2
      refine ⟨ih1, ?_⟩
      rw [← ih2]
      simp [List.filter_cons, hw]

/-- C8: whatever the gateway answers, `synchronizeUpstreams` processes every entry of
the desired configuration: it returns no error, writes one log entry per upstream and
sends the first request of the synchronization (`RetrieveUpstream`) for every one of
them. A failure while resolving, unregistering or registering the targets of an upstream
ends the processing of that upstream in the state reached at the failure. In the gateway
model, where every request may fail, the requests received for an upstream other than
`u`, the state of that upstream and its log entry are the same as when `u` is removed
from the desired configuration. -/
theorem C8_upstream_failures_are_isolated (entries : List (String × List String))
    (u : String) (g : kong.Gateway) :
    (∀ (σ : Type) (K : kong.Client σ) (s : σ),
        (main.synchronizeUpstreams.loop K entries s).1.map Prod.fst = entries.map Prod.fst
        ∧ (∀ v ∈ entries.map Prod.fst, kong.Call.RetrieveUpstream v
            ∈ (main.synchronizeUpstreams.loop K.recording entries (s, [])).2.2)
        ∧ ∀ D, main.getUpstreamConfigurationFromDocker D "" = .ok entries →
            main.synchronizeUpstreams D K s
              = (none, main.synchronizeUpstreams.loop K entries s))
    ∧ (∀ (σ : Type) (K : kong.Client σ) (s : σ) (d : List String),
        (∀ err s1, main.getUpstreamConfigurationFromKong K u s = (.error err, s1) →
            main.synchronizeUpstreams.body K u d s = (.unableToSynchronize err, s1))
        ∧ (∀ config s1 err s2,
            main.getUpstreamConfigurationFromKong K u s = (.ok config, s1) →
            main.unRegisterUpstreamTargets K u
              (toolkit.Diff (main.UpstreamConfig.index config u) d) s1 = (some err, s2) →
            main.synchronizeUpstreams.body K u d s
              = (.unableToUnregister err
                  (toolkit.Diff (main.UpstreamConfig.index config u) d), s2))
        ∧ (∀ config s1 s2 err s3,
            main.getUpstreamConfigurationFromKong K u s = (.ok config, s1) →
            main.unRegisterUpstreamTargets K u
              (toolkit.Diff (main.UpstreamConfig.index config u) d) s1 = (none, s2) →
            main.registerUpstreamTargets K u
              (toolkit.Diff d (main.UpstreamConfig.index config u)) s2 = (some err, s3) →
            main.synchronizeUpstreams.body K u d s
              = (.unableToRegister err
                  (toolkit.Diff d (main.UpstreamConfig.index config u)), s3)))
    ∧ (∀ v, v ≠ u → (main.synchronizeUpstreams.loop kong.model entries g).2 v
        = (main.synchronizeUpstreams.loop kong.model
            (entries.filter (fun e => decide (e.1 ≠ u))) g).2 v)
    ∧ (main.synchronizeUpstreams.loop kong.model entries g).1.filter
          (fun e => decide (e.1 ≠ u))
        = (main.synchronizeUpstreams.loop kong.model
            (entries.filter (fun e => decide (e.1 ≠ u))) g).1 := by
  refine ⟨?_, ?_, main.synchronizeUpstreams_loop_independent u entries g g (fun _ _ => rfl)⟩
  · intro σ K s
    refine ⟨main.synchronizeUpstreams_loop_keys K entries s, ?_, ?_⟩
    · obtain ⟨l, hl, hmem⟩ := main.synchronizeUpstreams_loop_trace K entries (s, [])
      intro v hv
      rw [hl]
      simpa using hmem v hv
    · intro D hD
      simp [main.synchronizeUpstreams, hD]
  · intro σ K s d
    refine ⟨?_, ?_, ?_⟩
    · intro err s1 h1
      simp [main.synchronizeUpstreams.body, h1]
    · intro config s1 err s2 h1 h2
      simp [main.synchronizeUpstreams.body, h1, h2]
    · intro config s1 s2 err s3 h1 h2 h3
      simp [main.synchronizeUpstreams.body, h1, h2, h3]

/-- C8 (witness): the desired upstreams are `web` and `api`, and listing the targets of
`web` fails: `web` is abandoned, `api` is synchronized, and the state of `api` is the one
reached when `api` is the only desired upstream. -/
theorem C8_witness :
    (main.synchronizeUpstreams.loop kong.model sample.entries sample.webFaultyGateway).1
      = [("web", main.SyncLog.unableToSynchronize "500 Internal Server Error"),
         ("api", main.SyncLog.synchronized ["10.0.0.9:80"] [])]
    ∧ (main.synchronizeUpstreams.loop kong.model sample.entries sample.webFaultyGateway).2 "api"
      = (main.synchronizeUpstreams.loop kong.model [("api", ["10.0.0.9:80"])]
          sample.webFaultyGateway).2 "api" :=
  ⟨rfl, (C8_upstream_failures_are_isolated sample.entries "web"
      sample.webFaultyGateway).2.2.1 "api" (by decide)⟩

/-! ## The listing of the active targets -/

theorem main.cleanupOrphanUpstream_no_panic {σ : Type} (D : DockerClient) (K : kong.Client σ)
    (upstream : String) (s : σ)
    (h : ∀ r, (K.ListActiveTargets upstream s).1 = .ok r → r.Total = 1 → r.Data ≠ [])
    (msg : String) :
    (main.cleanupOrphanUpstream D K upstream s).1 ≠ Outcome.panicked msg := by
  unfold main.cleanupOrphanUpstream
  cases hD : main.getUpstreamConfigurationFromDocker D upstream with
  | error err => simp
  | ok desired =>
    simp only []
    split_ifs with hidx
    · simp
    · rcases hL : K.ListActiveTargets upstream s with ⟨res, s1⟩
      cases res with
      | error err => simp
      | ok r =>
        simp only []
        split_ifs with ht
        · have ht' : r.Total = 1 := by simpa using ht
          have hne := h r (by rw [hL]) ht'
          cases hdata : r.Data with
          | nil => exact absurd hdata hne
          | cons t rest =>
            simp only []
            rcases hdel : K.DeleteTarget upstream t.ID s1 with ⟨e, s2⟩
            cases e <;> simp
        · simp

/-- C11 (the code at the failing input): the gateway answers the listing of the active
targets of `web` with the status 200 and the body `{"total":1}`. The body decodes
without error, `ListActiveTargets` returns `Total` 1 with an empty `Data`, so `Total`
is not the number of entries, and `cleanupOrphanUpstream`, `web` having no desired
target, panics on `result.Data[0]`. The same holds for every client whose listing has
the total 1 and no entry. -/
theorem C11_total_one_without_data_panics :
    kong.api.ListActiveTargets sample.unmarshalLight sample.unmarshalFull Except.ok
        (.ok ⟨200, "200 OK", sample.totalOnlyBody⟩) = .ok ⟨1, []⟩
    ∧ (1 : Nat) ≠ ([] : List kong.TargetResponse).length
    ∧ (main.cleanupOrphanUpstream sample.dockerEmpty
        (kong.api.client (sample.server sample.totalOnlyBody)) "web" ()).1
      = Outcome.panicked "index out of range [0] with length 0"
    ∧ ∀ (σ : Type) (D : DockerClient) (K : kong.Client σ) (upstream : String) (s : σ)
        (desired : main.UpstreamConfig) (r : kong.TargetListResponse),
        main.getUpstreamConfigurationFromDocker D upstream = .ok desired →
        main.UpstreamConfig.index desired upstream = [] →
        (K.ListActiveTargets upstream s).1 = .ok r → r.Total = 1 → r.Data = [] →
        (main.cleanupOrphanUpstream D K upstream s).1
          = Outcome.panicked "index out of range [0] with length 0" := by
  refine ⟨rfl, by decide, rfl, ?_⟩
  intro σ D K upstream s desired r hD hidx hL ht hdata
  rcases hL' : K.ListActiveTargets upstream s with ⟨res, s1⟩
  rw [hL'] at hL
  simp only [] at hL
  subst hL
  simp [main.cleanupOrphanUpstream, hD, hidx, hL', ht, hdata]
